import Mathlib

/-!
# Product catalog service (`src/server.js`)

A shallow embedding of the four request handlers of the Express application in
`src/server.js` together with the fragment of the JavaScript semantics they rely on
(property lookup, truthiness, `String.prototype.trim`, `parseInt`, the relational
operator `>=` with its implicit conversions, object spread, `findIndex`, `splice`).

Conventions of the embedding.

* A JSON object is an association list; a well-formed object has pairwise distinct keys
  (`Obj.WF`).  Property lookup reads the first binding of a key, assignment overwrites
  the first binding or appends a new one.  The enumeration order of keys plays no role.
* A JSON number is kept as the decimal `mant * 10 ^ exp` it was written as and denotes
  the double nearest to it.  Values of type Number are doubles `mant * 2 ^ exp`;
  `parseInt`, `ToNumber` and `JSON.parse` round to the nearest double, ties to even,
  whatever the number of digits.
* A handler is a function from the catalog (and the request) to an `Outcome`: either the
  response passed to `res.status(..).json(..)` or the exception it raised, and the
  catalog afterwards.
-/

namespace Server

/-! ## JSON values and objects -/

/-- JSON values, as produced by `express.json()` and by the query-string parser. -/
inductive JVal where
  | null
  | bool (b : Bool)
  | num (mant : Int) (exp : Int)
  | str (s : String)
  | arr (xs : List JVal)
  | obj (kvs : List (String × JVal))

/-- A JSON object: the list of its own properties. -/
abbrev Obj := List (String × JVal)

/-- The array `productos`. -/
abbrev Catalog := List Obj

/-- Own-property test, `Object.hasOwn(o, k)`. -/
def Obj.has (o : Obj) (k : String) : Bool :=
  o.any (fun kv => kv.1 == k)

/-- Property read `o.k` on a JSON object; `none` stands for `undefined`. None of the keys
read by the program (`id`, `nombre`, `stock`) exists on `Object.prototype`. -/
def Obj.get? : Obj → String → Option JVal
  | [], _ => none
  | (k', v) :: rest, k => if k' = k then some v else Obj.get? rest k

/-- Property write `o.k = v`: overwrite the binding of `k` in place, or add one. -/
def Obj.set : Obj → String → JVal → Obj
  | [], k, v => [(k, v)]
  | (k', v') :: rest, k, v =>
    if k' = k then (k, v) :: rest else (k', v') :: Obj.set rest k v

/-- Object spread `{ ...a, ...b }`: the properties of `a`, then each property of `b`
written over them in turn. The copy is shallow: a value is taken over as is. -/
def Obj.spread (a b : Obj) : Obj :=
  b.foldl (fun acc kv => Obj.set acc kv.1 kv.2) a

/-- Keys of an object are pairwise distinct. -/
def Obj.WF (o : Obj) : Prop :=
  (o.map Prod.fst).Nodup

/-- An integer-valued JSON number. -/
def JVal.int (n : Int) : JVal := JVal.num n 0

/-- Exceptions raised by the JavaScript runtime while a handler runs. -/
inductive JsError where
  | typeError (msg : String)
  deriving DecidableEq, Repr

deriving instance DecidableEq for Except

/-! ## Strings -/

/-- White space and line terminators of ECMAScript (`WhiteSpace`, `LineTerminator`),
the characters removed by `trim` and skipped by `parseInt` and by `ToNumber`. -/
def jsIsWhite (c : Char) : Bool :=
  let n := c.toNat
  n == 0x9 || n == 0xA || n == 0xB || n == 0xC || n == 0xD || n == 0x20 || n == 0xA0 ||
  n == 0x1680 || (0x2000 ≤ n && n ≤ 0x200A) || n == 0x2028 || n == 0x2029 ||
  n == 0x202F || n == 0x205F || n == 0x3000 || n == 0xFEFF

/-- Characters of `s` with leading white space removed. -/
def jsTrimStart (s : List Char) : List Char :=
  s.dropWhile jsIsWhite

/-- Characters of `s.trim()`. -/
def jsTrimChars (s : List Char) : List Char :=
  ((jsTrimStart s).reverse.dropWhile jsIsWhite).reverse

/-- `String.prototype.trim`. -/
def jsTrim (s : String) : String :=
  String.mk (jsTrimChars s.data)

/-- `String.prototype.substring(a, b)` for `a ≤ b`, on a string of BMP characters. -/
def jsSubstring (s : String) (a b : Nat) : String :=
  String.mk ((s.data.drop a).take (b - a))

/-- Value of `c` as a digit in the given radix, if it is one. -/
def digitVal (radix : Nat) (c : Char) : Option Nat :=
  let n := c.toNat
  let v : Option Nat :=
    if 48 ≤ n ∧ n ≤ 57 then some (n - 48)
    else if 97 ≤ n ∧ n ≤ 122 then some (n - 87)
    else if 65 ≤ n ∧ n ≤ 90 then some (n - 55)
    else none
  match v with
  | some d => if d < radix then some d else none
  | none => none

/-- Longest prefix of `s` made of digits of the radix, and what follows it. -/
def spanDigits (radix : Nat) : List Char → List Nat × List Char
  | [] => ([], [])
  | c :: rest =>
    match digitVal radix c with
    | some d => let r := spanDigits radix rest; (d :: r.1, r.2)
    | none => ([], c :: rest)

/-- Number denoted by a list of digits, most significant first. -/
def natOfDigits (radix : Nat) (ds : List Nat) : Nat :=
  ds.foldl (fun acc d => radix * acc + d) 0

/-- Split an optional sign off: `true` when the sign is `-`. -/
def splitSign : List Char → Bool × List Char
  | '-' :: rest => (true, rest)
  | '+' :: rest => (false, rest)
  | s => (false, s)

/-- Apply a sign to a magnitude. -/
def signed (neg : Bool) (n : Nat) : Int :=
  if neg then -(n : Int) else (n : Int)

/-- Radix selected by `parseInt` when none is given: 16 after a `0x`/`0X` marker,
which is removed, and 10 otherwise. -/
def splitRadix : List Char → Nat × List Char
  | '0' :: 'x' :: rest => (16, rest)
  | '0' :: 'X' :: rest => (16, rest)
  | s => (10, s)

/-! ## Numbers and conversions -/

/-- Values of the JavaScript type Number: `NaN`, the infinities, and the finite
doubles, a finite double being kept as `mant * 2 ^ exp`. Only the value matters: two
writings of the same value compare equal under `JNum.ge`. -/
inductive JNum where
  | nan
  | negInf
  | fin (mant : Int) (exp : Int)
  | posInf
  deriving DecidableEq, Repr

/-- Negation of a Number. -/
def JNum.neg : JNum → JNum
  | .nan => .nan
  | .negInf => .posInf
  | .posInf => .negInf
  | .fin m e => .fin (-m) e

/-- The comparison `x >= y` of two Numbers: `false` when either is `NaN`. -/
def JNum.ge : JNum → JNum → Bool
  | .nan, _ => false
  | _, .nan => false
  | .posInf, _ => true
  | _, .negInf => true
  | .negInf, _ => false
  | .fin _ _, .posInf => false
  | .fin m₁ e₁, .fin m₂ e₂ =>
    decide (m₂ * 2 ^ (e₂ - min e₁ e₂).toNat ≤ m₁ * 2 ^ (e₁ - min e₁ e₂).toNat)

/-- The comparison `x > 0`: `false` when `x` is `NaN`. -/
def JNum.isPositive : JNum → Bool
  | .posInf => true
  | .fin m _ => decide (0 < m)
  | _ => false

/-- The Number is `+0` or `-0`. -/
def JNum.isZero : JNum → Bool
  | .fin m _ => decide (m = 0)
  | _ => false

/-- Floor of the binary logarithm of `n`, by halving; `fuel` bounds the number of
halvings. -/
def log2Fuel : Nat → Nat → Nat
  | 0, _ => 0
  | fuel + 1, n => if n < 2 then 0 else log2Fuel fuel (n / 2) + 1

/-- Floor of the binary logarithm of a positive natural number. -/
def floorLog2Nat (n : Nat) : Nat :=
  log2Fuel n n

/-- The test `2 ^ e ≤ a / b`. -/
def pow2Le (e : Int) (a b : Nat) : Bool :=
  if 0 ≤ e then decide (b * 2 ^ e.toNat ≤ a) else decide (b ≤ a * 2 ^ (-e).toNat)

/-- Floor of the binary logarithm of the positive rational `a / b`: it is the
difference of the logarithms of `a` and `b`, or one less. -/
def floorLog2 (a b : Nat) : Int :=
  let e : Int := (floorLog2Nat a : Int) - (floorLog2Nat b : Int)
  if pow2Le e a b then e else e - 1

/-- The double nearest to the non-negative rational `a / b` (IEEE 754 binary64, round
to nearest, ties to even). An integer below `2 ^ 53` is a double as it stands.
Otherwise the value lies in `[2 ^ e, 2 ^ (e + 1))`, it is rounded to a multiple of
`2 ^ (e - 52)` (of `2 ^ (-1074)` in the subnormal range), and a result of `2 ^ 1024`
or more is `Infinity`. -/
def roundToDouble (a b : Nat) : JNum :=
  if a = 0 then .fin 0 0
  else if a % b = 0 ∧ a / b < 2 ^ 53 then .fin ((a / b : Nat) : Int) 0
  else
    let p : Int := max (floorLog2 a b) (-1022) - 52
    let num := if p < 0 then a * 2 ^ (-p).toNat else a
    let den := if p < 0 then b else b * 2 ^ p.toNat
    let q := num / den
    let r := num % den
    let q' := if den < 2 * r ∨ (2 * r = den ∧ q % 2 = 1) then q + 1 else q
    if 971 < p ∨ (p = 971 ∧ 2 ^ 53 ≤ q') then .posInf else .fin (q' : Int) p

/-- The double nearest to the decimal `m * 10 ^ e`. -/
def roundDecimal (m : Nat) (e : Int) : JNum :=
  if 0 ≤ e then roundToDouble (m * 10 ^ e.toNat) 1 else roundToDouble m (10 ^ (-e).toNat)

/-- The Number denoted by the JSON number `mant * 10 ^ exp`, as `JSON.parse` reads
it. -/
def jsNumberOf (mant exp : Int) : JNum :=
  if mant < 0 then (roundDecimal mant.natAbs exp).neg else roundDecimal mant.natAbs exp

/-- The call `parseInt(string)` with no radix argument, on the string `input`.
Leading white space is skipped, a sign is read, a `0x`/`0X` prefix selects radix 16,
and the longest prefix of digits is converted to the nearest double; what follows
the digits is ignored, and the result is `NaN` when there is no digit. -/
def jsParseInt (input : String) : JNum :=
  let signAndRest := splitSign (jsTrimStart input.data)
  let radixAndRest := splitRadix signAndRest.2
  let ds := (spanDigits radixAndRest.1 radixAndRest.2).1
  if ds.isEmpty then .nan
  else if signAndRest.1 then (roundToDouble (natOfDigits radixAndRest.1 ds) 1).neg
  else roundToDouble (natOfDigits radixAndRest.1 ds) 1

/-- The `ExponentPart` that may end a decimal literal: nothing, or `e`/`E`, an
optional sign and at least one digit, up to the end of the string. -/
def parseExponent : List Char → Option Int
  | [] => some 0
  | c :: rest =>
    if c = 'e' ∨ c = 'E' then
      let (neg, t) := splitSign rest
      let r := spanDigits 10 t
      if r.1.isEmpty || !r.2.isEmpty then none
      else some (signed neg (natOfDigits 10 r.1))
    else none

/-- The grammar `StrUnsignedDecimalLiteral`: `Infinity`, or digits with an optional
fraction and exponent, converted to the nearest double. -/
def parseUnsignedDecimal (s : List Char) : JNum :=
  if s = "Infinity".data then .posInf
  else
    let ip := spanDigits 10 s
    match ip.2 with
    | '.' :: afterDot =>
      let fp := spanDigits 10 afterDot
      if ip.1.isEmpty && fp.1.isEmpty then .nan
      else
        match parseExponent fp.2 with
        | none => .nan
        | some e => roundDecimal (natOfDigits 10 (ip.1 ++ fp.1)) (e - fp.1.length)
    | rest =>
      if ip.1.isEmpty then .nan
      else
        match parseExponent rest with
        | none => .nan
        | some e => roundDecimal (natOfDigits 10 ip.1) e

/-- Digits of a `0x`, `0o` or `0b` literal, up to the end of the string. -/
def parseRadixDigits (radix : Nat) (s : List Char) : JNum :=
  let r := spanDigits radix s
  if r.1.isEmpty || !r.2.isEmpty then .nan else roundToDouble (natOfDigits radix r.1) 1

/-- The conversion `StringToNumber` applied by `ToNumber` to a string: the trimmed
string is empty (`0`), a signed decimal literal, or an unsigned hexadecimal, octal or
binary literal; anything else is `NaN`. -/
def jsStringToNumber (s : String) : JNum :=
  match jsTrimChars s.data with
  | [] => .fin 0 0
  | '0' :: 'x' :: rest => parseRadixDigits 16 rest
  | '0' :: 'X' :: rest => parseRadixDigits 16 rest
  | '0' :: 'o' :: rest => parseRadixDigits 8 rest
  | '0' :: 'O' :: rest => parseRadixDigits 8 rest
  | '0' :: 'b' :: rest => parseRadixDigits 2 rest
  | '0' :: 'B' :: rest => parseRadixDigits 2 rest
  | '-' :: rest => (parseUnsignedDecimal rest).neg
  | '+' :: rest => parseUnsignedDecimal rest
  | t => parseUnsignedDecimal t

/-- Number of zeros between the decimal point and the first significant digit of
`a / b`, for `0 < a / b < 1`. -/
def leadingZeros : Nat → Nat → Nat → Nat
  | 0, _, _ => 0
  | fuel + 1, a, b => if b ≤ a * 10 then 0 else leadingZeros fuel (a * 10) b + 1

/-- The integer `n` with `10 ^ (n - 1) ≤ a / b < 10 ^ n`, for `a / b > 0`. -/
def decimalPoint (a b : Nat) : Int :=
  if b ≤ a then ((Nat.toDigits 10 (a / b)).length : Int)
  else -((leadingZeros 400 a b : Nat) : Int)

/-- Search of the shortest decimal that converts to the double `x = a / b`: for
`k = 1, 2, ...` digits, the two decimals with `k` digits around `a / b` are tried, and
of those that convert to `x` the nearer one is kept (the even one on a tie).
Seventeen digits always suffice. The result is `(s, e)` for the decimal
`s * 10 ^ e`. -/
def shortestSearch (a b : Nat) (x : JNum) (n : Int) : Nat → Nat → Nat × Int
  | 0, _ => (a / b, 0)
  | fuel + 1, k =>
    let e : Int := n - (k : Int)
    let num := if e < 0 then a * 10 ^ (-e).toNat else a
    let den := if e < 0 then b else b * 10 ^ e.toNat
    let lo := num / den
    let r := num % den
    let okLo := (roundDecimal lo e).ge x && x.ge (roundDecimal lo e)
    let okHi := (roundDecimal (lo + 1) e).ge x && x.ge (roundDecimal (lo + 1) e)
    if okLo && okHi then
      (if 2 * r < den ∨ (2 * r = den ∧ lo % 2 = 0) then (lo, e) else (lo + 1, e))
    else if okLo then (lo, e)
    else if okHi then (lo + 1, e)
    else shortestSearch a b x n fuel (k + 1)

/-- The shortest decimal `s * 10 ^ e` that converts to the positive double
`q * 2 ^ p`. -/
def shortestDecimal (q : Nat) (p : Int) : Nat × Int :=
  let a := if p < 0 then q else q * 2 ^ p.toNat
  let b := if p < 0 then 2 ^ (-p).toNat else 1
  shortestSearch a b (.fin q p) (decimalPoint a b) 17 1

/-- Writing of a non-negative decimal `mant * 10 ^ exp` by the rules of
`Number::toString`: with `k` significant digits and the decimal point after the
`n`-th of them, plain decimal writing is used for `-6 < n ≤ 21` and exponent writing
otherwise. -/
def unsignedToString (mant : Nat) (exp : Int) : String :=
  if mant = 0 then "0"
  else
    let all := Nat.toDigits 10 mant
    let ds := (all.reverse.dropWhile (fun c => c == '0')).reverse
    let k : Int := ds.length
    let n : Int := k + (exp + ((all.length - ds.length : Nat) : Int))
    if k ≤ n ∧ n ≤ 21 then
      String.mk (ds ++ List.replicate (n - k).toNat '0')
    else if 0 < n ∧ n ≤ 21 then
      String.mk (ds.take n.toNat ++ '.' :: ds.drop n.toNat)
    else if -6 < n ∧ n ≤ 0 then
      String.mk ('0' :: '.' :: List.replicate (-n).toNat '0' ++ ds)
    else
      let e := n - 1
      let es := (if e < 0 then "-" else "+") ++ String.mk (Nat.toDigits 10 e.natAbs)
      match ds with
      | [d] => String.mk [d] ++ "e" ++ es
      | d :: more => String.mk (d :: '.' :: more) ++ "e" ++ es
      | [] => "0"

/-- `Number::toString` (radix 10): the shortest decimal that converts back to the
Number, written by the rules of `unsignedToString`. -/
def numberToString : JNum → String
  | .nan => "NaN"
  | .posInf => "Infinity"
  | .negInf => "-Infinity"
  | .fin m e =>
    let sd := shortestDecimal m.natAbs e
    if m < 0 then "-" ++ unsignedToString sd.1 sd.2 else unsignedToString sd.1 sd.2

mutual
/-- `ToString` on a JSON value. An array goes through `Array.prototype.join`; an
object goes through `Object.prototype.toString` unless an own property `toString`
(never callable, as it came from JSON) hides it, in which case no conversion to a
primitive exists and a `TypeError` is raised. -/
def jsToString : JVal → Except JsError String
  | .null => .ok "null"
  | .bool b => .ok (if b then "true" else "false")
  | .num m e => .ok (numberToString (jsNumberOf m e))
  | .str s => .ok s
  | .arr xs => jsJoin xs
  | .obj kvs =>
    if kvs.any (fun kv => kv.1 == "toString") then
      .error (.typeError "Cannot convert object to primitive value")
    else .ok "[object Object]"
/-- `Array.prototype.join` with the default separator: `null` elements give the
empty string, every other element its `ToString`. -/
def jsJoin : List JVal → Except JsError String
  | [] => .ok ""
  | x :: rest =>
    match (match x with
      | .null => (Except.ok "" : Except JsError String)
      | y => jsToString y) with
    | .error err => .error err
    | .ok a =>
      match rest with
      | [] => .ok a
      | _ :: _ =>
        match jsJoin rest with
        | .error err => .error err
        | .ok b => .ok (a ++ "," ++ b)
end

/-- `ToString` on a value that may be `undefined`. -/
def jsToStringOpt : Option JVal → Except JsError String
  | none => .ok "undefined"
  | some v => jsToString v

/-- `ToNumber` on a value that may be `undefined`, as applied by the relational
operators: arrays and objects are first converted to a primitive, which for JSON
data is their `ToString`. -/
def jsToNumber : Option JVal → Except JsError JNum
  | none => .ok .nan
  | some .null => .ok (.fin 0 0)
  | some (.bool b) => .ok (.fin (if b then 1 else 0) 0)
  | some (.num m e) => .ok (jsNumberOf m e)
  | some (.str s) => .ok (jsStringToNumber s)
  | some v =>
    match jsToString v with
    | .error err => .error err
    | .ok s => .ok (jsStringToNumber s)

/-- The expression `v >= y` for a Number `y`. -/
def jsGe (v : Option JVal) (y : JNum) : Except JsError Bool :=
  match jsToNumber v with
  | .error err => .error err
  | .ok x => .ok (x.ge y)

/-- `ToBoolean`: `undefined`, `null`, `false`, `0` and the empty string are falsy. -/
def jsTruthy : Option JVal → Bool
  | none => false
  | some .null => false
  | some (.bool b) => b
  | some (.num m e) => !(jsNumberOf m e).isZero
  | some (.str s) => !s.data.isEmpty
  | some (.arr _) => true
  | some (.obj _) => true

/-! ## The application state and the handlers -/

/-- The initial value of `productos`. -/
def productosIniciales : Catalog :=
  [ [("id", .str "a1"), ("nombre", .str "Laptop Gamer"), ("precio", .int 1200),
      ("stock", .int 5)],
    [("id", .str "b2"), ("nombre", .str "Teclado Mecánico"), ("precio", .int 80),
      ("stock", .int 20)],
    [("id", .str "c3"), ("nombre", .str "Monitor 4K"), ("precio", .int 450),
      ("stock", .int 12)] ]

/-- `generateId`, with the string `Math.random().toString(36)` as its argument:
`"0"` when the draw is `0`, and `"0."` followed by base-36 digits otherwise. -/
def generateId (random36 : String) : String :=
  jsSubstring random36 2 9

/-- What `res.status(status).json(body)` sends. -/
structure Response where
  status : Nat
  body : Obj

/-- Result of running a handler: the response it sent, or the exception that left
it, and the value of `productos` afterwards. -/
structure Outcome where
  result : Except JsError Response
  productos : Catalog

/-- Status code of the response, if one was sent. -/
def Outcome.status? (o : Outcome) : Option Nat :=
  match o.result with
  | .ok r => some r.status
  | .error _ => none

/-- Field of the response body, if a response was sent and has the field. -/
def Outcome.field? (o : Outcome) (k : String) : Option JVal :=
  match o.result with
  | .ok r => r.body.get? k
  | .error _ => none

/-- The callback `p => p.id === id`, for a string `id`. -/
def idMatches (id : String) (p : Obj) : Bool :=
  match p.get? "id" with
  | some (.str s) => s == id
  | _ => false

/-- `Array.prototype.findIndex`; `none` stands for `-1`. -/
def findIndex (pred : Obj → Bool) : Catalog → Option Nat
  | [] => none
  | p :: rest => if pred p then some 0 else (findIndex pred rest).map (· + 1)

/-- The call `productos.filter(p => p.stock >= stockMinimo)`: elements are tested in
order and the first exception raised by a test leaves the call. -/
def filterStock (stockMinimo : JNum) : Catalog → Except JsError Catalog
  | [] => .ok []
  | p :: rest =>
    match jsGe (p.get? "stock") stockMinimo with
    | .error err => .error err
    | .ok keep =>
      match filterStock stockMinimo rest with
      | .error err => .error err
      | .ok kept => .ok (if keep then p :: kept else kept)

/-- Response of the unfiltered branch of `GET /productos`. -/
def listaCompleta (productos : Catalog) : Response :=
  { status := 200
    body := [("estado", .str "OK"), ("mensaje", .str "Lista completa de productos"),
      ("data", .arr (productos.map .obj))] }

/-- Handler `app.get('/productos')`, with `req.query` as its argument. -/
def getProductos (productos : Catalog) (query : Obj) : Outcome :=
  match jsToStringOpt (query.get? "stock_minimo") with
  | .error err => { result := .error err, productos := productos }
  | .ok s =>
    if (jsParseInt s).isPositive then
      match filterStock (jsParseInt s) productos with
      | .error err => { result := .error err, productos := productos }
      | .ok productosFiltrados =>
        { result := .ok
            { status := 200
              body := [("estado", .str "OK"),
                ("mensaje", .str ("Lista de productos con stock >= " ++
                  numberToString (jsParseInt s))),
                ("datos_recibidos", .obj query),
                ("data", .arr (productosFiltrados.map .obj))] }
          productos := productos }
    else { result := .ok (listaCompleta productos), productos := productos }

/-- The method call `v.trim()`: only a string has the method. -/
def jsCallTrim : Option JVal → Except JsError String
  | some (.str s) => .ok (jsTrim s)
  | _ => .error (.typeError "nuevoProducto.nombre.trim is not a function")

/-- The test `!nuevoProducto.nombre || nuevoProducto.nombre.trim() === ''`. -/
def nombreInvalido (nombre : Option JVal) : Except JsError Bool :=
  if !jsTruthy nombre then .ok true
  else
    match jsCallTrim nombre with
    | .error err => .error err
    | .ok t => .ok (t == "")

/-- Handler `app.post('/productos')`, with `req.body` and the random string drawn by
`generateId` as its arguments. The object pushed to `productos`, `recurso` and
`datos_recibidos` are one and the same object, `req.body` after the assignment
of `id`. -/
def postProductos (productos : Catalog) (body : Obj) (random36 : String) : Outcome :=
  match nombreInvalido (body.get? "nombre") with
  | .error err => { result := .error err, productos := productos }
  | .ok true =>
    { result := .ok
        { status := 400
          body := [("estado", .str "ERROR"),
            ("mensaje", .str "El nombre del producto es obligatorio."),
            ("codigo", .int 400)] }
      productos := productos }
  | .ok false =>
    let nuevoProducto := Obj.set body "id" (.str (generateId random36))
    { result := .ok
        { status := 201
          body := [("estado", .str "CREADO"),
            ("mensaje", .str "Producto agregado exitosamente."),
            ("datos_recibidos", .obj nuevoProducto),
            ("recurso", .obj nuevoProducto),
            ("codigo", .int 201)] }
      productos := productos ++ [nuevoProducto] }

/-- Handler `app.put('/productos/:id')`, with `req.params.id` and `req.body` as its
arguments. -/
def putProductos (productos : Catalog) (id : String) (nuevosDatos : Obj) : Outcome :=
  match findIndex (idMatches id) productos with
  | none =>
    { result := .ok
        { status := 404
          body := [("estado", .str "ERROR"),
            ("mensaje", .str ("Producto con ID " ++ id ++
              " no encontrado para actualizar.")),
            ("codigo", .int 404)] }
      productos := productos }
  | some productoIndex =>
    let actualizado := Obj.spread (productos.getD productoIndex []) nuevosDatos
    { result := .ok
        { status := 200
          body := [("estado", .str "ACTUALIZADO"),
            ("mensaje", .str ("Producto con ID " ++ id ++
              " actualizado correctamente.")),
            ("datos_recibidos", .obj [("id", .str id), ("body", .obj nuevosDatos)]),
            ("recurso", .obj actualizado),
            ("codigo", .int 200)] }
      productos := productos.set productoIndex actualizado }

/-- Handler `app.delete('/productos/:id')`, with `req.params.id` as its argument. -/
def deleteProductos (productos : Catalog) (id : String) : Outcome :=
  let productoIndex := findIndex (idMatches id) productos
  if id = "critical" then
    { result := .ok
        { status := 500
          body := [("estado", .str "ERROR FATAL"),
            ("mensaje", .str "Error interno simulado: No se pudo conectar a la BD."),
            ("codigo", .int 500)] }
      productos := productos }
  else
    match productoIndex with
    | none =>
      { result := .ok
          { status := 404
            body := [("estado", .str "ERROR"),
              ("mensaje", .str ("Producto con ID " ++ id ++
                " no encontrado para eliminar.")),
              ("codigo", .int 404)] }
        productos := productos }
    | some i =>
      { result := .ok
          { status := 200
            body := [("estado", .str "ELIMINADO"),
              ("mensaje", .str ("Producto con ID " ++ id ++
                " eliminado correctamente.")),
              ("recurso_eliminado", .obj (productos.getD i [])),
              ("codigo", .int 200)] }
        productos := productos.eraseIdx i }

/-! ## Request sequences -/

/-- A request to one of the four routes. A create request carries the string drawn
by the id generator while it is served. -/
inductive Request where
  | list (query : Obj)
  | create (body : Obj) (random36 : String)
  | update (id : String) (body : Obj)
  | delete (id : String)

/-- Dispatch of a request to its handler. -/
def handle (productos : Catalog) : Request → Outcome
  | .list query => getProductos productos query
  | .create body random36 => postProductos productos body random36
  | .update id body => putProductos productos id body
  | .delete id => deleteProductos productos id

/-- Value of `productos` after serving the requests in order. -/
def run (productos : Catalog) (reqs : List Request) : Catalog :=
  reqs.foldl (fun c r => (handle c r).productos) productos

/-- The id of a product when it is a string. -/
def idString (p : Obj) : Option String :=
  match p.get? "id" with
  | some (.str s) => some s
  | _ => none

/-- The id of a product is a non-empty string. -/
def hasNonEmptyId (p : Obj) : Bool :=
  match p.get? "id" with
  | some (.str s) => !s.data.isEmpty
  | _ => false

/-- The catalog invariant on ids: each product has a non-empty id and no two
products have the same id. -/
def IdsOk (c : Catalog) : Prop :=
  (∀ p ∈ c, hasNonEmptyId p = true) ∧ (c.map idString).Nodup

/-- Shape of `Math.random().toString(36)`: `"0"`, or `"0."` followed by at least one
digit among `0`-`9`, `a`-`z`. -/
def isRandom36 (s : String) : Bool :=
  match s.data with
  | ['0'] => true
  | '0' :: '.' :: d :: ds =>
    (d :: ds).all (fun c => (digitVal 36 c).isSome && !(65 ≤ c.toNat && c.toNat ≤ 90))
  | _ => false

/-- Side condition under which a request cannot disturb the ids: a create request draws
a non-empty id carried by no product of the catalog, an update request has no `id`
field in its body. -/
def requestKeepsIds (c : Catalog) : Request → Bool
  | .create _ random36 =>
    !(generateId random36).data.isEmpty &&
      c.all (fun p => idString p != some (generateId random36))
  | .update _ body => !Obj.has body "id"
  | _ => true

/-- Every request of the sequence meets `requestKeepsIds` in the catalog it is served
in. -/
def keepsIds : Catalog → List Request → Bool
  | _, [] => true
  | c, r :: rs => requestKeepsIds c r && keepsIds (handle c r).productos rs

/-! ## Vocabulary of the statements -/

/-- A decimal digit `0`-`9`. -/
def isDecDigit (c : Char) : Bool :=
  decide (48 ≤ c.toNat) && decide (c.toNat ≤ 57)

/-- The natural number written by a non-empty string of decimal digits. -/
def decimalNat? (s : String) : Option Nat :=
  if s.data.isEmpty || !s.data.all isDecDigit then none
  else some (s.data.foldl (fun acc c => 10 * acc + (c.toNat - 48)) 0)

/-- The test `p.stock >= n` completes and holds, for a natural number `n`. -/
def stockAtLeast (n : Nat) (p : Obj) : Bool :=
  match jsGe (Obj.get? p "stock") (.fin (n : Int) 0) with
  | .ok b => b
  | .error _ => false

/-- The test `p.stock >= n` completes, with either answer. -/
def stockComparable (p : Obj) : Prop :=
  ∃ x, jsToNumber (Obj.get? p "stock") = .ok x

/-- Number of elements of the `data` array of a response. -/
def dataLength (o : Outcome) : Option Nat :=
  match o.field? "data" with
  | some (.arr xs) => some xs.length
  | _ => none

/-- Exception that left the handler, if it sent no response. -/
def Outcome.raised? (o : Outcome) : Option JsError :=
  match o.result with
  | .ok _ => none
  | .error err => some err

/-! ## Lemmas on objects and lists -/

theorem Obj.get?_set (o : Obj) (k k' : String) (v : JVal) :
    Obj.get? (Obj.set o k v) k' = if k = k' then some v else Obj.get? o k' := by
  induction o with
  | nil => simp [Obj.set, Obj.get?]
  | cons kv rest ih =>
    obtain ⟨k₁, v₁⟩ := kv
    by_cases h1 : k₁ = k
    · subst h1
      by_cases h2 : k₁ = k' <;> simp [Obj.set, Obj.get?, h2]
    · by_cases h2 : k₁ = k'
      · subst h2
        have h3 : ¬ k = k₁ := fun h => h1 h.symm
        simp [Obj.set, Obj.get?, h1, h3]
      · simp [Obj.set, Obj.get?, h1, h2, ih]

theorem Obj.has_eq_false_iff (o : Obj) (k : String) :
    Obj.has o k = false ↔ ∀ kv ∈ o, kv.1 ≠ k := by
  simp [Obj.has]

theorem Obj.get?_eq_none_of_not_has (o : Obj) (k : String) (h : Obj.has o k = false) :
    Obj.get? o k = none := by
  induction o with
  | nil => rfl
  | cons kv rest ih =>
    obtain ⟨k₁, v₁⟩ := kv
    simp only [Obj.has, List.any_cons, Bool.or_eq_false_iff, beq_eq_false_iff_ne] at h
    simp only [Obj.get?, if_neg h.1]
    exact ih h.2

theorem Obj.get?_spread_of_not_has (a b : Obj) (k : String) (h : Obj.has b k = false) :
    Obj.get? (Obj.spread a b) k = Obj.get? a k := by
  induction b generalizing a with
  | nil => rfl
  | cons kv rest ih =>
    obtain ⟨k₁, v₁⟩ := kv
    simp only [Obj.has, List.any_cons, Bool.or_eq_false_iff, beq_eq_false_iff_ne] at h
    have h2 : Obj.get? (Obj.spread (Obj.set a k₁ v₁) rest) k = Obj.get? (Obj.set a k₁ v₁) k :=
      ih (Obj.set a k₁ v₁) h.2
    have h3 : Obj.spread a ((k₁, v₁) :: rest) = Obj.spread (Obj.set a k₁ v₁) rest := rfl
    rw [h3, h2, Obj.get?_set, if_neg h.1]

theorem Obj.get?_spread_of_has (a b : Obj) (k : String) (hwf : Obj.WF b)
    (h : Obj.has b k = true) : Obj.get? (Obj.spread a b) k = Obj.get? b k := by
  induction b generalizing a with
  | nil => simp [Obj.has] at h
  | cons kv rest ih =>
    obtain ⟨k₁, v₁⟩ := kv
    have h3 : Obj.spread a ((k₁, v₁) :: rest) = Obj.spread (Obj.set a k₁ v₁) rest := rfl
    simp only [Obj.WF, List.map_cons, List.nodup_cons] at hwf
    by_cases hk : k₁ = k
    · subst hk
      have hnot : Obj.has rest k₁ = false := by
        rw [Obj.has_eq_false_iff]
        intro kv hkv heq
        exact hwf.1 (List.mem_map.mpr ⟨kv, hkv, heq⟩)
      rw [h3, Obj.get?_spread_of_not_has _ _ _ hnot, Obj.get?_set]
      simp [Obj.get?]
    · have hrest : Obj.has rest k = true := by
        simp only [Obj.has, List.any_cons, Bool.or_eq_true, beq_iff_eq] at h
        rcases h with h | h
        · exact absurd h hk
        · simpa [Obj.has] using h
      rw [h3, ih _ hwf.2 hrest]
      simp [Obj.get?, hk]

theorem findIndex_eq_none_iff (pred : Obj → Bool) (c : Catalog) :
    findIndex pred c = none ↔ ∀ p ∈ c, pred p = false := by
  induction c with
  | nil => simp [findIndex]
  | cons p rest ih =>
    by_cases hp : pred p = true
    · simp [findIndex, hp]
    · simp only [Bool.not_eq_true] at hp
      simp [findIndex, hp, ih]

theorem findIndex_eq_some (pred : Obj → Bool) (c : Catalog) (i : Nat)
    (h : findIndex pred c = some i) :
    ∃ before p after, c = before ++ p :: after ∧ before.length = i ∧ pred p = true ∧
      ∀ q ∈ before, pred q = false := by
  induction c generalizing i with
  | nil => simp [findIndex] at h
  | cons p rest ih =>
    by_cases hp : pred p = true
    · simp only [findIndex, hp, if_true, Option.some.injEq] at h
      exact ⟨[], p, rest, rfl, by simpa using h, hp, by simp⟩
    · simp only [Bool.not_eq_true] at hp
      simp only [findIndex, hp, Bool.false_eq_true, if_false, Option.map_eq_some'] at h
      obtain ⟨j, hj, rfl⟩ := h
      obtain ⟨before, q, after, hc, hlen, hq, hall⟩ := ih j hj
      refine ⟨p :: before, q, after, by simp [hc], by simp [hlen], hq, ?_⟩
      intro r hr
      rcases List.mem_cons.mp hr with rfl | hr
      · exact hp
      · exact hall r hr

theorem findIndex_isSome_of_mem (pred : Obj → Bool) (c : Catalog) (p : Obj) (hp : p ∈ c)
    (h : pred p = true) : ∃ i, findIndex pred c = some i := by
  cases hfi : findIndex pred c with
  | some i => exact ⟨i, rfl⟩
  | none =>
    have := (findIndex_eq_none_iff pred c).mp hfi p hp
    rw [h] at this
    exact absurd this (by simp)

theorem getD_append_cons (before after : Catalog) (p : Obj) :
    (before ++ p :: after).getD before.length [] = p := by
  induction before with
  | nil => rfl
  | cons b bs ih => simpa using ih

theorem set_append_cons (before after : Catalog) (p q : Obj) :
    (before ++ p :: after).set before.length q = before ++ q :: after := by
  simp

theorem eraseIdx_append_cons (before after : Catalog) (p : Obj) :
    (before ++ p :: after).eraseIdx before.length = before ++ after := by
  induction before with
  | nil => rfl
  | cons b bs ih => simpa using ih

/-! ## The handlers, case by case -/

theorem findIndex_append_cons (pred : Obj → Bool) (before after : Catalog) (p : Obj)
    (hp : pred p = true) (hbefore : ∀ q ∈ before, pred q = false) :
    findIndex pred (before ++ p :: after) = some before.length := by
  induction before with
  | nil => simp [findIndex, hp]
  | cons b bs ih =>
    have hb : pred b = false := hbefore b (List.mem_cons_self _ _)
    have hbs : ∀ q ∈ bs, pred q = false := fun q hq => hbefore q (List.mem_cons_of_mem _ hq)
    simp [findIndex, hb, ih hbs]

theorem getProductos_productos (c : Catalog) (query : Obj) :
    (getProductos c query).productos = c := by
  unfold getProductos
  split
  · rfl
  · split
    · split <;> rfl
    · rfl

theorem postProductos_productos (c : Catalog) (body : Obj) (random36 : String) :
    (postProductos c body random36).productos = c ∨
      (postProductos c body random36).productos =
        c ++ [Obj.set body "id" (.str (generateId random36))] := by
  unfold postProductos
  split
  · exact Or.inl rfl
  · exact Or.inl rfl
  · exact Or.inr rfl

theorem putProductos_of_none (c : Catalog) (id : String) (body : Obj)
    (h : findIndex (idMatches id) c = none) :
    putProductos c id body =
      { result := .ok
          { status := 404
            body := [("estado", .str "ERROR"),
              ("mensaje", .str ("Producto con ID " ++ id ++
                " no encontrado para actualizar.")),
              ("codigo", .int 404)] }
        productos := c } := by
  simp [putProductos, h]

theorem putProductos_of_split (before after : Catalog) (p : Obj) (id : String) (body : Obj)
    (hp : idMatches id p = true) (hbefore : ∀ q ∈ before, idMatches id q = false) :
    putProductos (before ++ p :: after) id body =
      { result := .ok
          { status := 200
            body := [("estado", .str "ACTUALIZADO"),
              ("mensaje", .str ("Producto con ID " ++ id ++
                " actualizado correctamente.")),
              ("datos_recibidos", .obj [("id", .str id), ("body", .obj body)]),
              ("recurso", .obj (Obj.spread p body)),
              ("codigo", .int 200)] }
        productos := before ++ Obj.spread p body :: after } := by
  unfold putProductos
  rw [findIndex_append_cons _ _ _ _ hp hbefore]
  simp only [getD_append_cons, set_append_cons]

theorem deleteProductos_of_none (c : Catalog) (id : String) (hid : id ≠ "critical")
    (h : findIndex (idMatches id) c = none) :
    deleteProductos c id =
      { result := .ok
          { status := 404
            body := [("estado", .str "ERROR"),
              ("mensaje", .str ("Producto con ID " ++ id ++
                " no encontrado para eliminar.")),
              ("codigo", .int 404)] }
        productos := c } := by
  simp [deleteProductos, h, hid]

theorem deleteProductos_of_split (before after : Catalog) (p : Obj) (id : String)
    (hid : id ≠ "critical")
    (hp : idMatches id p = true) (hbefore : ∀ q ∈ before, idMatches id q = false) :
    deleteProductos (before ++ p :: after) id =
      { result := .ok
          { status := 200
            body := [("estado", .str "ELIMINADO"),
              ("mensaje", .str ("Producto con ID " ++ id ++
                " eliminado correctamente.")),
              ("recurso_eliminado", .obj p),
              ("codigo", .int 200)] }
        productos := before ++ after } := by
  unfold deleteProductos
  rw [findIndex_append_cons _ _ _ _ hp hbefore]
  simp only [getD_append_cons, eraseIdx_append_cons, if_neg hid]

theorem deleteProductos_critical (c : Catalog) :
    deleteProductos c "critical" =
      { result := .ok
          { status := 500
            body := [("estado", .str "ERROR FATAL"),
              ("mensaje", .str "Error interno simulado: No se pudo conectar a la BD."),
              ("codigo", .int 500)] }
        productos := c } := by
  simp [deleteProductos]

/-! ## Lemmas on strings and numbers -/

theorem mem_dropWhile_of_false (p : Char → Bool) (s : List Char) (c : Char) (hc : c ∈ s)
    (hp : p c = false) : c ∈ s.dropWhile p := by
  induction s with
  | nil => simp at hc
  | cons d rest ih =>
    by_cases hd : p d = true
    · rcases List.mem_cons.mp hc with rfl | hc
      · rw [hp] at hd
        exact absurd hd (by simp)
      · simpa [List.dropWhile, hd] using ih hc
    · simp only [Bool.not_eq_true] at hd
      simpa [List.dropWhile, hd] using hc

theorem jsTrimChars_eq_nil (s : List Char) (h : ∀ c ∈ s, jsIsWhite c = true) :
    jsTrimChars s = [] := by
  have hstart : jsTrimStart s = [] := by
    simpa [jsTrimStart, List.dropWhile_eq_nil_iff] using h
  simp [jsTrimChars, hstart]

theorem jsTrimChars_ne_nil (s : List Char) (c : Char) (hc : c ∈ s)
    (hw : jsIsWhite c = false) : jsTrimChars s ≠ [] := by
  have h1 : c ∈ jsTrimStart s := mem_dropWhile_of_false jsIsWhite s c hc hw
  have h2 : c ∈ (jsTrimStart s).reverse.dropWhile jsIsWhite :=
    mem_dropWhile_of_false jsIsWhite _ c (List.mem_reverse.mpr h1) hw
  intro hnil
  have h3 : (jsTrimStart s).reverse.dropWhile jsIsWhite = [] := by
    simpa [jsTrimChars] using hnil
  rw [h3] at h2
  simp at h2

theorem nombreInvalido_of_blank (v : Option JVal)
    (h : v = none ∨ ∃ s, v = some (.str s) ∧ ∀ ch ∈ s.data, jsIsWhite ch = true) :
    nombreInvalido v = .ok true := by
  rcases h with rfl | ⟨s, rfl, hs⟩
  · rfl
  · unfold nombreInvalido
    by_cases hempty : s.data.isEmpty = true
    · simp [jsTruthy, hempty]
    · simp only [Bool.not_eq_true] at hempty
      simp [jsTruthy, hempty, jsCallTrim, jsTrim, jsTrimChars_eq_nil s.data hs]

theorem nombreInvalido_of_visible (s : String) (h : ∃ ch ∈ s.data, jsIsWhite ch = false) :
    nombreInvalido (some (.str s)) = .ok false := by
  obtain ⟨ch, hch, hw⟩ := h
  have hne : s.data.isEmpty = false := by
    cases hs : s.data with
    | nil => simp [hs] at hch
    | cons _ _ => rfl
  have htrim : jsTrimChars s.data ≠ [] := jsTrimChars_ne_nil s.data ch hch hw
  have hneq : (String.mk (jsTrimChars s.data) == "") = false := by
    rw [beq_eq_false_iff_ne]
    intro heq
    exact htrim (congrArg String.data heq)
  simp [nombreInvalido, jsTruthy, hne, jsCallTrim, jsTrim, hneq]

theorem isDecDigit_not_white (c : Char) (h : isDecDigit c = true) : jsIsWhite c = false := by
  simp only [isDecDigit, Bool.and_eq_true, decide_eq_true_eq] at h
  simp only [jsIsWhite]
  generalize c.toNat = n at h
  simp
  omega

theorem digitVal_of_isDecDigit (c : Char) (h : isDecDigit c = true) :
    digitVal 10 c = some (c.toNat - 48) := by
  simp only [isDecDigit, Bool.and_eq_true, decide_eq_true_eq] at h
  simp only [digitVal]
  generalize c.toNat = n at h
  rw [if_pos h]
  have : n - 48 < 10 := by omega
  simp [this]

theorem spanDigits_of_all (s : List Char) (h : ∀ c ∈ s, isDecDigit c = true) :
    spanDigits 10 s = (s.map (fun c => c.toNat - 48), []) := by
  induction s with
  | nil => rfl
  | cons c rest ih =>
    have hc := digitVal_of_isDecDigit c (h c (List.mem_cons_self _ _))
    have hrest := ih (fun d hd => h d (List.mem_cons_of_mem _ hd))
    simp [spanDigits, hc, hrest]

theorem splitSign_of_isDecDigit (c : Char) (rest : List Char) (h : isDecDigit c = true) :
    splitSign (c :: rest) = (false, c :: rest) := by
  unfold splitSign
  split
  · rename_i heq
    simp only [List.cons.injEq] at heq
    rw [heq.1] at h
    exact absurd h (by decide)
  · rename_i heq
    simp only [List.cons.injEq] at heq
    rw [heq.1] at h
    exact absurd h (by decide)
  · rfl

theorem digitVal_of_not_isDecDigit (c : Char) (h : isDecDigit c = false) :
    digitVal 10 c = none := by
  simp only [isDecDigit, Bool.and_eq_false_iff, decide_eq_false_iff_not] at h
  simp only [digitVal]
  generalize c.toNat = n at h
  split_ifs <;> simp <;> omega

theorem spanDigits_append (digits rest : List Char)
    (hall : ∀ c ∈ digits, isDecDigit c = true)
    (hrest : ∀ ch, rest.head? = some ch → isDecDigit ch = false) :
    spanDigits 10 (digits ++ rest) = (digits.map (fun c => c.toNat - 48), rest) := by
  induction digits with
  | nil =>
    cases rest with
    | nil => rfl
    | cons ch more =>
      have hch := digitVal_of_not_isDecDigit ch (hrest ch rfl)
      simp [spanDigits, hch]
  | cons c more ih =>
    have hc := digitVal_of_isDecDigit c (hall c (List.mem_cons_self _ _))
    have hmore := ih (fun d hd => hall d (List.mem_cons_of_mem _ hd))
    simp [spanDigits, hc, hmore]

theorem splitRadix_of_leading_digits (c : Char) (more rest : List Char)
    (hall : ∀ d ∈ c :: more, isDecDigit d = true)
    (hzero : c = '0' → more ≠ []) :
    splitRadix (c :: more ++ rest) = (10, c :: more ++ rest) := by
  cases more with
  | nil =>
    have hc : c ≠ '0' := fun h => hzero h rfl
    unfold splitRadix
    split
    · rename_i heq
      simp only [List.cons_append, List.nil_append, List.cons.injEq] at heq
      exact absurd heq.1 hc
    · rename_i heq
      simp only [List.cons_append, List.nil_append, List.cons.injEq] at heq
      exact absurd heq.1 hc
    · rfl
  | cons d more2 =>
    have hd : isDecDigit d = true := hall d (by simp)
    unfold splitRadix
    split
    · rename_i heq
      simp only [List.cons_append, List.cons.injEq] at heq
      rw [heq.2.1] at hd
      exact absurd hd (by decide)
    · rename_i heq
      simp only [List.cons_append, List.cons.injEq] at heq
      rw [heq.2.1] at hd
      exact absurd hd (by decide)
    · rfl

theorem roundToDouble_of_lt (n : Nat) (h : n < 2 ^ 53) :
    roundToDouble n 1 = .fin (n : Int) 0 := by
  unfold roundToDouble
  by_cases h0 : n = 0
  · subst h0
    simp
  · rw [if_neg h0, if_pos ⟨Nat.mod_one n, by simpa using h⟩]
    simp

theorem jsParseInt_of_leading_digits (digits rest : List Char) (n : Nat)
    (hd : decimalNat? (String.mk digits) = some n) (hn : 0 < n) (hlt : n < 2 ^ 53)
    (hrest : ∀ ch, rest.head? = some ch → isDecDigit ch = false) :
    jsParseInt (String.mk (digits ++ rest)) = .fin (n : Int) 0 := by
  unfold decimalNat? at hd
  split at hd
  · exact absurd hd (by simp)
  · rename_i hcond
    simp only [Bool.or_eq_true, Bool.not_eq_true', not_or, Bool.not_eq_true,
      Bool.not_eq_false] at hcond
    obtain ⟨hne, hall⟩ := hcond
    rw [List.all_eq_true] at hall
    simp only [Option.some.injEq] at hd
    cases digits with
    | nil => simp at hne
    | cons c more =>
      have hc : isDecDigit c = true := hall c (List.mem_cons_self _ _)
      have hzero : c = '0' → more ≠ [] := by
        intro h0 hmore
        subst h0 hmore
        simp at hd
        omega
      have htrim : jsTrimStart (c :: more ++ rest) = c :: more ++ rest := by
        simp [jsTrimStart, List.dropWhile, isDecDigit_not_white c hc]
      have hsign : splitSign (c :: more ++ rest) = (false, c :: more ++ rest) :=
        splitSign_of_isDecDigit c (more ++ rest) hc
      have hfold : natOfDigits 10 ((c :: more).map (fun c => c.toNat - 48)) = n := by
        rw [natOfDigits, List.foldl_map]
        exact hd
      unfold jsParseInt
      simp only [htrim, hsign, splitRadix_of_leading_digits c more rest hall hzero,
        spanDigits_append (c :: more) rest hall hrest, hfold]
      simp [roundToDouble_of_lt n hlt]

theorem jsParseInt_of_decimalNat (s : String) (n : Nat) (h : decimalNat? s = some n)
    (hn : 0 < n) (hlt : n < 2 ^ 53) : jsParseInt s = .fin (n : Int) 0 := by
  have := jsParseInt_of_leading_digits s.data [] n h hn hlt (by simp)
  simpa using this

theorem JNum.ge_int (k n : Int) : JNum.ge (.fin k 0) (.fin n 0) = decide (n ≤ k) := by
  simp [JNum.ge]

theorem jsNumberOf_int (k : Int) (h : k.natAbs < 2 ^ 53) : jsNumberOf k 0 = .fin k 0 := by
  unfold jsNumberOf roundDecimal
  simp only [le_refl, if_true, Int.toNat_zero, pow_zero, mul_one,
    roundToDouble_of_lt k.natAbs h]
  by_cases hk : k < 0
  · simp only [hk, if_true, JNum.neg, JNum.fin.injEq, and_true]
    omega
  · simp only [hk, if_false, JNum.fin.injEq, and_true]
    omega

theorem filterStock_of_comparable (n : Nat) (c : Catalog)
    (h : ∀ p ∈ c, stockComparable p) :
    filterStock (.fin (n : Int) 0) c = .ok (c.filter (stockAtLeast n)) := by
  induction c with
  | nil => rfl
  | cons p rest ih =>
    obtain ⟨x, hx⟩ := h p (List.mem_cons_self _ _)
    have hrest := ih (fun q hq => h q (List.mem_cons_of_mem _ hq))
    have hge : jsGe (Obj.get? p "stock") (.fin (n : Int) 0) = .ok (x.ge (.fin (n : Int) 0)) := by
      simp [jsGe, hx]
    have hat : stockAtLeast n p = x.ge (.fin (n : Int) 0) := by simp [stockAtLeast, hge]
    cases hb : x.ge (.fin (n : Int) 0) <;> simp [filterStock, hge, hrest, List.filter, hat, hb]

theorem idMatches_iff (id : String) (p : Obj) :
    idMatches id p = true ↔ Obj.get? p "id" = some (.str id) := by
  unfold idMatches
  split
  · rename_i s hs
    simp [hs]
  · rename_i hs
    constructor
    · intro h
      exact absurd h (by simp)
    · intro h
      exact absurd h (hs id)

theorem idMatches_eq_false_iff (id : String) (p : Obj) :
    idMatches id p = false ↔ Obj.get? p "id" ≠ some (.str id) := by
  rw [Ne, ← idMatches_iff]
  simp

/-! ## Preservation of the id invariant -/

theorem idString_spread_of_no_id (p body : Obj) (h : Obj.has body "id" = false) :
    idString (Obj.spread p body) = idString p := by
  simp [idString, Obj.get?_spread_of_not_has p body "id" h]

theorem hasNonEmptyId_spread_of_no_id (p body : Obj) (h : Obj.has body "id" = false) :
    hasNonEmptyId (Obj.spread p body) = hasNonEmptyId p := by
  simp [hasNonEmptyId, Obj.get?_spread_of_not_has p body "id" h]

theorem IdsOk_append_cons (before after : Catalog) (p q : Obj)
    (h1 : idString q = idString p) (h2 : hasNonEmptyId q = hasNonEmptyId p)
    (h : IdsOk (before ++ p :: after)) : IdsOk (before ++ q :: after) := by
  obtain ⟨hne, hnd⟩ := h
  constructor
  · intro r hr
    rcases List.mem_append.mp hr with hr | hr
    · exact hne r (List.mem_append_left _ hr)
    · rcases List.mem_cons.mp hr with rfl | hr
      · rw [h2]
        exact hne p (List.mem_append_right _ (List.mem_cons_self _ _))
      · exact hne r (List.mem_append_right _ (List.mem_cons_of_mem _ hr))
  · simpa [h1] using hnd

theorem IdsOk_remove (before after : Catalog) (p : Obj)
    (h : IdsOk (before ++ p :: after)) : IdsOk (before ++ after) := by
  obtain ⟨hne, hnd⟩ := h
  have hsub : List.Sublist (before ++ after) (before ++ p :: after) :=
    List.Sublist.append (List.Sublist.refl before) (List.sublist_cons_self p after)
  exact ⟨fun r hr => hne r (hsub.subset hr), hnd.sublist (hsub.map idString)⟩

theorem IdsOk_push (c : Catalog) (body : Obj) (id : String)
    (hid : id.data.isEmpty = false) (hfresh : ∀ p ∈ c, idString p ≠ some id)
    (h : IdsOk c) : IdsOk (c ++ [Obj.set body "id" (.str id)]) := by
  obtain ⟨hne, hnd⟩ := h
  have hget : Obj.get? (Obj.set body "id" (.str id)) "id" = some (.str id) := by
    rw [Obj.get?_set]; simp
  constructor
  · intro r hr
    rcases List.mem_append.mp hr with hr | hr
    · exact hne r hr
    · rw [List.mem_singleton] at hr
      subst hr
      simp [hasNonEmptyId, hget, hid]
  · rw [List.map_append, List.nodup_append]
    refine ⟨hnd, by simp, ?_⟩
    intro a ha hb
    simp only [List.map_cons, List.map_nil, List.mem_singleton] at hb
    obtain ⟨r, hr, hra⟩ := List.mem_map.mp ha
    apply hfresh r hr
    rw [hra, hb]
    simp [idString, hget]

theorem IdsOk_handle (c : Catalog) (r : Request) (hr : requestKeepsIds c r = true)
    (h : IdsOk c) : IdsOk (handle c r).productos := by
  cases r with
  | list query => simpa [handle, getProductos_productos] using h
  | create body random36 =>
    simp only [requestKeepsIds, Bool.and_eq_true, Bool.not_eq_true', List.all_eq_true,
      bne_iff_ne, ne_eq] at hr
    rcases postProductos_productos c body random36 with hc | hc
    · simpa [handle, hc] using h
    · simp only [handle, hc]
      exact IdsOk_push c body _ hr.1 hr.2 h
  | update id body =>
    simp only [requestKeepsIds, Bool.not_eq_true'] at hr
    cases hfi : findIndex (idMatches id) c with
    | none => simpa [handle, putProductos_of_none c id body hfi] using h
    | some i =>
      obtain ⟨before, p, after, hc, _, hp, hbefore⟩ := findIndex_eq_some _ _ _ hfi
      subst hc
      simp only [handle, putProductos_of_split before after p id body hp hbefore]
      exact IdsOk_append_cons before after p _ (idString_spread_of_no_id p body hr)
        (hasNonEmptyId_spread_of_no_id p body hr) h
  | delete id =>
    by_cases hid : id = "critical"
    · subst hid
      simpa [handle, deleteProductos_critical] using h
    · cases hfi : findIndex (idMatches id) c with
      | none => simpa [handle, deleteProductos_of_none c id hid hfi] using h
      | some i =>
        obtain ⟨before, p, after, hc, _, hp, hbefore⟩ := findIndex_eq_some _ _ _ hfi
        subst hc
        simp only [handle, deleteProductos_of_split before after p id hid hp hbefore]
        exact IdsOk_remove before after p h

theorem IdsOk_run (reqs : List Request) (c : Catalog) (hreqs : keepsIds c reqs = true)
    (h : IdsOk c) : IdsOk (run c reqs) := by
  induction reqs generalizing c with
  | nil => simpa [run] using h
  | cons r rs ih =>
    simp only [keepsIds, Bool.and_eq_true] at hreqs
    have hstep := IdsOk_handle c r hreqs.1 h
    have := ih (handle c r).productos hreqs.2 hstep
    simpa [run] using this

theorem IdsOk_productosIniciales : IdsOk productosIniciales := by
  unfold IdsOk
  decide

/-! ## C1 -/

/-- C1, as stated, fails: the id invariant does not survive every request sequence.
From the initial catalog, an update whose body carries `id: "b2"` gives two products
the id `b2`; two creates that draw the same random string (`0.5` is written `0.i`
in base 36) give two products the id `i`; a create that draws `0` stores a product
whose id is the empty string. -/
theorem C1_ids_invariant_fails :
    ¬ IdsOk (run productosIniciales [.update "a1" [("id", .str "b2")]]) ∧
    (isRandom36 "0.i" = true ∧
      ¬ IdsOk (run productosIniciales
        [.create [("nombre", .str "Mouse")] "0.i",
         .create [("nombre", .str "Webcam")] "0.i"])) ∧
    (isRandom36 "0" = true ∧
      ¬ IdsOk (run productosIniciales [.create [("nombre", .str "Mouse")] "0"])) := by
  unfold IdsOk
  decide

/-- C1, amended: starting from the initial catalog, after every sequence of list,
create, update and delete requests in which each create draws a non-empty id that no
product of the catalog carries at that moment and no update body has an `id` field,
every product has a non-empty id and no two products share an id. -/
theorem C1_ids_invariant_of_fresh_ids (reqs : List Request)
    (hreqs : keepsIds productosIniciales reqs = true) :
    IdsOk (run productosIniciales reqs) :=
  IdsOk_run reqs productosIniciales hreqs IdsOk_productosIniciales

/-- Witness of C1 amended: a create, an update without `id`, a delete and a list. -/
theorem C1_ids_invariant_of_fresh_ids_witness :
    keepsIds productosIniciales
      [.create [("nombre", .str "Mouse"), ("precio", .int 25)] "0.4fzyo82mvyr",
       .update "a1" [("precio", .int 999)],
       .delete "b2",
       .list [("stock_minimo", .str "10")]] = true ∧
    IdsOk (run productosIniciales
      [.create [("nombre", .str "Mouse"), ("precio", .int 25)] "0.4fzyo82mvyr",
       .update "a1" [("precio", .int 999)],
       .delete "b2",
       .list [("stock_minimo", .str "10")]]) :=
  ⟨by decide, C1_ids_invariant_of_fresh_ids _ (by decide)⟩

/-! ## C2 -/

/-- C2: for every catalog and every request body whose `nombre` is missing, or is a
string made of white space only (the empty string included), `POST /productos`
answers 400 with `estado: 'ERROR'` and `codigo: 400`, and the catalog is the same list
as before. -/
theorem C2_create_rejects_blank_name (c : Catalog) (body : Obj) (random36 : String)
    (h : Obj.get? body "nombre" = none ∨
      ∃ s, Obj.get? body "nombre" = some (.str s) ∧ ∀ ch ∈ s.data, jsIsWhite ch = true) :
    (postProductos c body random36).status? = some 400 ∧
    (postProductos c body random36).field? "estado" = some (.str "ERROR") ∧
    (postProductos c body random36).field? "codigo" = some (.int 400) ∧
    (postProductos c body random36).productos = c := by
  have hinv := nombreInvalido_of_blank (Obj.get? body "nombre") h
  simp [postProductos, hinv, Outcome.status?, Outcome.field?, Obj.get?]

/-- Witness of C2: the body `{"nombre": "  "}` against the initial catalog. -/
theorem C2_create_rejects_blank_name_witness :
    (postProductos productosIniciales [("nombre", .str "  ")] "0.4fzyo82mvyr").status? =
        some 400 ∧
    (postProductos productosIniciales [("nombre", .str "  ")] "0.4fzyo82mvyr").field?
        "estado" = some (.str "ERROR") ∧
    (postProductos productosIniciales [("nombre", .str "  ")] "0.4fzyo82mvyr").field?
        "codigo" = some (.int 400) ∧
    (postProductos productosIniciales [("nombre", .str "  ")] "0.4fzyo82mvyr").productos =
        productosIniciales :=
  C2_create_rejects_blank_name productosIniciales [("nombre", .str "  ")] "0.4fzyo82mvyr"
    (Or.inr ⟨"  ", rfl, by decide⟩)

/-! ## C3 -/

theorem generateId_nonempty (random36 : String) (hshape : isRandom36 random36 = true)
    (hne : random36 ≠ "0") : (generateId random36).data.isEmpty = false := by
  unfold isRandom36 at hshape
  split at hshape
  · rename_i hs
    exact absurd (String.ext hs) hne
  · rename_i d ds hs
    simp [generateId, jsSubstring, hs]
  · exact absurd hshape (by simp)

/-- C3, as stated, fails on the non-emptiness of the id: when `Math.random()` returns
`0` the random string is `"0"`, `generateId` returns the empty string, and the
product is stored (status 201) with `id: ""`. -/
theorem C3_created_id_may_be_empty :
    isRandom36 "0" = true ∧
    (postProductos productosIniciales
      [("nombre", .str "Mouse"), ("precio", .int 25), ("stock", .int 100)] "0").status? =
        some 201 ∧
    ((postProductos productosIniciales
      [("nombre", .str "Mouse"), ("precio", .int 25), ("stock", .int 100)] "0").productos.map
        idString) = [some "a1", some "b2", some "c3", some ""] ∧
    ((postProductos productosIniciales
      [("nombre", .str "Mouse"), ("precio", .int 25), ("stock", .int 100)] "0").productos.map
        hasNonEmptyId) = [true, true, true, false] := by
  decide

/-- C3, amended: for every catalog and every request body whose `nombre` is a string
with a character that is not white space, `POST /productos` answers 201 with
`estado: 'CREADO'`, the new catalog is the old one with one record appended, and that
record, also returned as `recurso`, has the generated id as its `id` (whether or not
the body carried one) and the caller's value for every other field. The id is
non-empty whenever the random draw is not `0`. -/
theorem C3_create_appends_record (c : Catalog) (body : Obj) (random36 s : String)
    (hnombre : Obj.get? body "nombre" = some (.str s))
    (hvisible : ∃ ch ∈ s.data, jsIsWhite ch = false) :
    (postProductos c body random36).status? = some 201 ∧
    (postProductos c body random36).field? "estado" = some (.str "CREADO") ∧
    ∃ record : Obj,
      (postProductos c body random36).productos = c ++ [record] ∧
      (postProductos c body random36).field? "recurso" = some (.obj record) ∧
      Obj.get? record "id" = some (.str (generateId random36)) ∧
      (∀ f, f ≠ "id" → Obj.get? record f = Obj.get? body f) ∧
      (isRandom36 random36 = true → random36 ≠ "0" → hasNonEmptyId record = true) := by
  have hinv : nombreInvalido (Obj.get? body "nombre") = .ok false := by
    rw [hnombre]
    exact nombreInvalido_of_visible s hvisible
  have hid : Obj.get? (Obj.set body "id" (.str (generateId random36))) "id" =
      some (.str (generateId random36)) := by
    rw [Obj.get?_set]
    simp
  refine ⟨by simp [postProductos, hinv, Outcome.status?],
    by simp [postProductos, hinv, Outcome.field?, Obj.get?],
    Obj.set body "id" (.str (generateId random36)),
    by simp [postProductos, hinv],
    by simp [postProductos, hinv, Outcome.field?, Obj.get?],
    hid, ?_, ?_⟩
  · intro f hf
    rw [Obj.get?_set, if_neg (fun h => hf h.symm)]
  · intro hshape hne
    simp [hasNonEmptyId, hid, generateId_nonempty random36 hshape hne]

/-- Witness of C3 amended: the body of the specification's example, which also carries
an `id` of its own. -/
theorem C3_create_appends_record_witness :
    (postProductos productosIniciales
      [("id", .str "mine"), ("nombre", .str "Mouse"), ("precio", .int 25),
        ("stock", .int 100)] "0.4fzyo82mvyr").status? = some 201 ∧
    (postProductos productosIniciales
      [("id", .str "mine"), ("nombre", .str "Mouse"), ("precio", .int 25),
        ("stock", .int 100)] "0.4fzyo82mvyr").field? "estado" = some (.str "CREADO") ∧
    ∃ record : Obj,
      (postProductos productosIniciales
        [("id", .str "mine"), ("nombre", .str "Mouse"), ("precio", .int 25),
          ("stock", .int 100)] "0.4fzyo82mvyr").productos = productosIniciales ++ [record] ∧
      (postProductos productosIniciales
        [("id", .str "mine"), ("nombre", .str "Mouse"), ("precio", .int 25),
          ("stock", .int 100)] "0.4fzyo82mvyr").field? "recurso" = some (.obj record) ∧
      Obj.get? record "id" = some (.str (generateId "0.4fzyo82mvyr")) ∧
      (∀ f, f ≠ "id" → Obj.get? record f =
        Obj.get? [("id", .str "mine"), ("nombre", .str "Mouse"), ("precio", .int 25),
          ("stock", .int 100)] f) ∧
      (isRandom36 "0.4fzyo82mvyr" = true → "0.4fzyo82mvyr" ≠ "0" →
        hasNonEmptyId record = true) :=
  C3_create_appends_record productosIniciales
    [("id", .str "mine"), ("nombre", .str "Mouse"), ("precio", .int 25),
      ("stock", .int 100)] "0.4fzyo82mvyr" "Mouse" rfl ⟨'M', by decide, by decide⟩

/-! ## C4 -/

/-- C4, as stated, fails in two ways. A product whose `stock` is an object with an own
`toString` field cannot be compared with a number: it is accepted by
`POST /productos`, and a filtered listing of the resulting catalog raises a
`TypeError` in place of answering 200. And `parseInt` returns a double: the digits
`9007199254740993` (`2 ^ 53 + 1`) are read as `2 ^ 53`, so a product whose stock is
`9007199254740992` is listed although its stock is below the integer written. -/
theorem C4_filtered_listing_fails :
    (decimalNat? "1" = some 1 ∧
      (postProductos productosIniciales
        [("nombre", .str "Raro"), ("stock", .obj [("toString", .int 1)])]
        "0.4fzyo82mvyr").status? = some 201 ∧
      (getProductos
        (postProductos productosIniciales
          [("nombre", .str "Raro"), ("stock", .obj [("toString", .int 1)])]
          "0.4fzyo82mvyr").productos
        [("stock_minimo", .str "1")]).status? = none) ∧
    (decimalNat? "9007199254740993" = some 9007199254740993 ∧
      (9007199254740992 : Int) < 9007199254740993 ∧
      dataLength (getProductos
        [[("id", .str "g1"), ("nombre", .str "Grande"), ("stock", .int 9007199254740992)]]
        [("stock_minimo", .str "9007199254740993")]) = some 1) := by
  decide

/-- C4, amended: for every catalog in which the comparison of each product's `stock`
with a number completes, and every query whose `stock_minimo` is a string of decimal
digits writing a positive integer `n` below `2 ^ 53`, `GET /productos` answers 200
with `estado: 'OK'`, `data` is the sub-sequence of the catalog, in catalog order, of
the products for which `stock >= n` holds, `datos_recibidos` is the query, and the
catalog is unchanged. For a product whose `stock` is a JSON integer `k` below
`2 ^ 53` in magnitude, `stock >= n` holds exactly when `n ≤ k`; for a product without
`stock` it does not hold. -/
theorem C4_filtered_listing (c : Catalog) (query : Obj) (s : String) (n : Nat)
    (hquery : Obj.get? query "stock_minimo" = some (.str s))
    (hs : decimalNat? s = some n) (hn : 0 < n) (hsafe : n < 2 ^ 53)
    (hc : ∀ p ∈ c, stockComparable p) :
    (getProductos c query).status? = some 200 ∧
    (getProductos c query).field? "estado" = some (.str "OK") ∧
    (getProductos c query).field? "data" =
      some (.arr ((c.filter (stockAtLeast n)).map .obj)) ∧
    (getProductos c query).field? "datos_recibidos" = some (.obj query) ∧
    (getProductos c query).productos = c ∧
    (∀ p ∈ c, ∀ k : Int, k.natAbs < 2 ^ 53 → Obj.get? p "stock" = some (.int k) →
      (stockAtLeast n p = true ↔ (n : Int) ≤ k)) ∧
    (∀ p ∈ c, Obj.get? p "stock" = none → stockAtLeast n p = false) := by
  have hparse : jsParseInt s = .fin (n : Int) 0 := jsParseInt_of_decimalNat s n hs hn hsafe
  have hpos : (0 : Int) < (n : Int) := by exact_mod_cast hn
  have hfilter := filterStock_of_comparable n c hc
  refine ⟨?_, ?_, ?_, ?_, ?_, ?_, ?_⟩
  · simp [getProductos, hquery, jsToStringOpt, jsToString, hparse, JNum.isPositive, hpos,
      hfilter, Outcome.status?]
  · simp [getProductos, hquery, jsToStringOpt, jsToString, hparse, JNum.isPositive, hpos,
      hfilter, Outcome.field?, Obj.get?]
  · simp [getProductos, hquery, jsToStringOpt, jsToString, hparse, JNum.isPositive, hpos,
      hfilter, Outcome.field?, Obj.get?]
  · simp [getProductos, hquery, jsToStringOpt, jsToString, hparse, JNum.isPositive, hpos,
      hfilter, Outcome.field?, Obj.get?]
  · exact getProductos_productos c query
  · intro p _ k hk hstock
    have hnum : jsToNumber (Obj.get? p "stock") = .ok (.fin k 0) := by
      rw [hstock]
      simp [JVal.int, jsToNumber, jsNumberOf_int k hk]
    simp [stockAtLeast, jsGe, hnum, JNum.ge_int]
  · intro p _ hstock
    simp [stockAtLeast, jsGe, hstock, jsToNumber, JNum.ge]

/-- Witness of C4 amended: `stock_minimo=10` against the initial catalog, whose
stocks are 5, 20 and 12. -/
theorem C4_filtered_listing_witness :
    (getProductos productosIniciales [("stock_minimo", .str "10")]).status? = some 200 ∧
    (getProductos productosIniciales [("stock_minimo", .str "10")]).field? "estado" =
      some (.str "OK") ∧
    (getProductos productosIniciales [("stock_minimo", .str "10")]).field? "data" =
      some (.arr ((productosIniciales.filter (stockAtLeast 10)).map .obj)) ∧
    (getProductos productosIniciales [("stock_minimo", .str "10")]).field?
      "datos_recibidos" = some (.obj [("stock_minimo", .str "10")]) ∧
    (getProductos productosIniciales [("stock_minimo", .str "10")]).productos =
      productosIniciales ∧
    (∀ p ∈ productosIniciales, ∀ k : Int, k.natAbs < 2 ^ 53 →
      Obj.get? p "stock" = some (.int k) →
      (stockAtLeast 10 p = true ↔ ((10 : Nat) : Int) ≤ k)) ∧
    (∀ p ∈ productosIniciales, Obj.get? p "stock" = none → stockAtLeast 10 p = false) :=
  C4_filtered_listing productosIniciales [("stock_minimo", .str "10")] "10" 10 rfl
    (by decide) (by decide) (by decide)
    (by
      intro p hp
      simp only [productosIniciales, List.mem_cons, List.mem_singleton, List.not_mem_nil,
        or_false] at hp
      rcases hp with rfl | rfl | rfl <;> exact ⟨_, rfl⟩)

/-! ## C5 -/

/-- C5: for every catalog, `GET /productos` with no `stock_minimo` parameter, or with
`stock_minimo=0`, answers 200 with the whole catalog as `data`, in the catalog's
order, and leaves the catalog unchanged. -/
theorem C5_unfiltered_listing (c : Catalog) (query : Obj)
    (h : Obj.get? query "stock_minimo" = none ∨
      Obj.get? query "stock_minimo" = some (.str "0")) :
    (getProductos c query).status? = some 200 ∧
    (getProductos c query).field? "data" = some (.arr (c.map .obj)) ∧
    (getProductos c query).productos = c := by
  have hundef : (jsParseInt "undefined").isPositive = false := by decide
  have hzero : (jsParseInt "0").isPositive = false := by decide
  rcases h with h | h
  · simp [getProductos, h, jsToStringOpt, hundef, listaCompleta, Outcome.status?,
      Outcome.field?, Obj.get?]
  · simp [getProductos, h, jsToStringOpt, jsToString, hzero, listaCompleta,
      Outcome.status?, Outcome.field?, Obj.get?]

/-- Witness of C5: `stock_minimo=0` against the initial catalog. -/
theorem C5_unfiltered_listing_witness :
    (getProductos productosIniciales [("stock_minimo", .str "0")]).status? = some 200 ∧
    (getProductos productosIniciales [("stock_minimo", .str "0")]).field? "data" =
      some (.arr (productosIniciales.map .obj)) ∧
    (getProductos productosIniciales [("stock_minimo", .str "0")]).productos =
      productosIniciales :=
  C5_unfiltered_listing productosIniciales [("stock_minimo", .str "0")] (Or.inr rfl)

/-! ## C6 -/

/-- C6, as stated, fails: a value that only begins with a positive integer is read by
`parseInt` as that integer and the listing is filtered. With `stock_minimo=10abc`
the initial catalog (stocks 5, 20, 12) is listed without its first product, and with
`stock_minimo=3.7` a catalog whose only product has stock 2 is listed empty. -/
theorem C6_leading_integer_filters :
    (jsParseInt "10abc" = .fin 10 0 ∧
      dataLength (getProductos productosIniciales [("stock_minimo", .str "10abc")]) =
        some 2 ∧
      (getProductos productosIniciales [("stock_minimo", .str "10abc")]).field? "data" ≠
        some (.arr (productosIniciales.map .obj))) ∧
    (jsParseInt "3.7" = .fin 3 0 ∧
      dataLength (getProductos
        [[("id", .str "z9"), ("nombre", .str "Cable"), ("stock", .int 2)]]
        [("stock_minimo", .str "3.7")]) = some 0 ∧
      (getProductos
        [[("id", .str "z9"), ("nombre", .str "Cable"), ("stock", .int 2)]]
        [("stock_minimo", .str "3.7")]).field? "data" ≠
        some (.arr ([[("id", .str "z9"), ("nombre", .str "Cable"),
          ("stock", .int 2)]].map .obj))) := by
  refine ⟨⟨by decide, by decide, ?_⟩, by decide, by decide, ?_⟩
  · intro h
    have h2 : dataLength (getProductos productosIniciales
        [("stock_minimo", .str "10abc")]) = some 2 := by decide
    simp only [dataLength, h] at h2
    exact absurd h2 (by decide)
  · intro h
    have h2 : dataLength (getProductos
        [[("id", .str "z9"), ("nombre", .str "Cable"), ("stock", .int 2)]]
        [("stock_minimo", .str "3.7")]) = some 0 := by decide
    simp only [dataLength, h] at h2
    exact absurd h2 (by decide)

/-- C6, amended: for every catalog and every `stock_minimo` value, absent or present,
whose conversion to a string completes with the string `s`. If `parseInt` does not
read `s` as a positive number (it reads `NaN`, zero or a negative number, as for
`abc`, `0`, `-5` or `-3.7`), `GET /productos` answers 200 with the full catalog as
`data`. If `s` is made of decimal digits writing a positive integer `n` below
`2 ^ 53`, followed by nothing or by anything that does not start with a digit, as
in `3.7` and `10abc`, and the comparison of each product's `stock` with a number
completes, `GET /productos` answers 200 with the listing filtered by `n`: `data` is the
sub-sequence of the products for which `stock >= n` holds. -/
theorem C6_filter_follows_parseInt (c : Catalog) (query : Obj) (s : String)
    (hs : jsToStringOpt (Obj.get? query "stock_minimo") = .ok s) :
    ((jsParseInt s).isPositive = false →
      (getProductos c query).status? = some 200 ∧
      (getProductos c query).field? "data" = some (.arr (c.map .obj)) ∧
      (getProductos c query).productos = c) ∧
    (∀ (digits rest : List Char) (n : Nat),
      s.data = digits ++ rest → decimalNat? (String.mk digits) = some n →
      0 < n → n < 2 ^ 53 →
      (∀ ch, rest.head? = some ch → isDecDigit ch = false) →
      (∀ p ∈ c, stockComparable p) →
      (getProductos c query).status? = some 200 ∧
      (getProductos c query).field? "data" =
        some (.arr ((c.filter (stockAtLeast n)).map .obj)) ∧
      (getProductos c query).productos = c) := by
  constructor
  · intro hnot
    simp [getProductos, hs, hnot, listaCompleta, Outcome.status?, Outcome.field?, Obj.get?]
  · intro digits rest n hdata hdigits hn hsafe hrest hc
    have hparse : jsParseInt s = .fin (n : Int) 0 := by
      have h := jsParseInt_of_leading_digits digits rest n hdigits hn hsafe hrest
      rw [← hdata] at h
      exact h
    have hpos : (0 : Int) < (n : Int) := by exact_mod_cast hn
    have hfilter := filterStock_of_comparable n c hc
    refine ⟨?_, ?_, getProductos_productos c query⟩
    · simp [getProductos, hs, hparse, JNum.isPositive, hpos, hfilter, Outcome.status?]
    · simp [getProductos, hs, hparse, JNum.isPositive, hpos, hfilter, Outcome.field?,
        Obj.get?]

/-- Witness of C6 amended: `stock_minimo=-5` lists the whole initial catalog, and
`stock_minimo=10abc` lists it filtered by 10. -/
theorem C6_filter_follows_parseInt_witness :
    ((getProductos productosIniciales [("stock_minimo", .str "-5")]).status? = some 200 ∧
      (getProductos productosIniciales [("stock_minimo", .str "-5")]).field? "data" =
        some (.arr (productosIniciales.map .obj)) ∧
      (getProductos productosIniciales [("stock_minimo", .str "-5")]).productos =
        productosIniciales) ∧
    ((getProductos productosIniciales [("stock_minimo", .str "10abc")]).status? =
        some 200 ∧
      (getProductos productosIniciales [("stock_minimo", .str "10abc")]).field? "data" =
        some (.arr ((productosIniciales.filter (stockAtLeast 10)).map .obj)) ∧
      (getProductos productosIniciales [("stock_minimo", .str "10abc")]).productos =
        productosIniciales) :=
  ⟨(C6_filter_follows_parseInt productosIniciales [("stock_minimo", .str "-5")] "-5"
      rfl).1 (by decide),
    (C6_filter_follows_parseInt productosIniciales [("stock_minimo", .str "10abc")] "10abc"
      rfl).2 ['1', '0'] ['a', 'b', 'c'] 10 rfl (by decide) (by decide) (by decide)
      (by decide)
      (by
        intro p hp
        simp only [productosIniciales, List.mem_cons, List.mem_singleton,
          List.not_mem_nil, or_false] at hp
        rcases hp with rfl | rfl | rfl <;> exact ⟨_, rfl⟩)⟩

/-! ## C7 -/

/-- C7: for every catalog containing a product with the target id and every request
body, `PUT /productos/:id` answers 200 with `estado: 'ACTUALIZADO'`; the record
stored in the place of the first product with that id, also returned as `recurso`,
has for every field name the body's value when the body has the field and the old
record's value when it does not. -/
theorem C7_update_merges_shallowly (c : Catalog) (id : String) (body : Obj)
    (hwf : Obj.WF body) (hex : ∃ p ∈ c, Obj.get? p "id" = some (.str id)) :
    ∃ (before : Catalog) (old : Obj) (after : Catalog) (merged : Obj),
      c = before ++ old :: after ∧
      (∀ q ∈ before, Obj.get? q "id" ≠ some (.str id)) ∧
      Obj.get? old "id" = some (.str id) ∧
      (putProductos c id body).status? = some 200 ∧
      (putProductos c id body).field? "estado" = some (.str "ACTUALIZADO") ∧
      (putProductos c id body).productos = before ++ merged :: after ∧
      (putProductos c id body).field? "recurso" = some (.obj merged) ∧
      ∀ f, Obj.get? merged f =
        if Obj.has body f = true then Obj.get? body f else Obj.get? old f := by
  obtain ⟨p, hp, hid⟩ := hex
  obtain ⟨i, hi⟩ := findIndex_isSome_of_mem (idMatches id) c p hp ((idMatches_iff id p).mpr hid)
  obtain ⟨before, old, after, hc, _, hold, hbefore⟩ := findIndex_eq_some _ _ _ hi
  subst hc
  have hput := putProductos_of_split before after old id body hold hbefore
  refine ⟨before, old, after, Obj.spread old body, rfl, ?_, (idMatches_iff id old).mp hold,
    ?_, ?_, ?_, ?_, ?_⟩
  · intro q hq
    exact (idMatches_eq_false_iff id q).mp (hbefore q hq)
  · simp [hput, Outcome.status?]
  · simp [hput, Outcome.field?, Obj.get?]
  · simp [hput]
  · simp [hput, Outcome.field?, Obj.get?]
  · intro f
    by_cases hf : Obj.has body f = true
    · rw [if_pos hf, Obj.get?_spread_of_has old body f hwf hf]
    · rw [if_neg hf]
      simp only [Bool.not_eq_true] at hf
      exact Obj.get?_spread_of_not_has old body f hf

/-- Witness of C7: `PUT /productos/a1` with `{"precio": 999}` against the initial
catalog. -/
theorem C7_update_merges_shallowly_witness :
    ∃ (before : Catalog) (old : Obj) (after : Catalog) (merged : Obj),
      productosIniciales = before ++ old :: after ∧
      (∀ q ∈ before, Obj.get? q "id" ≠ some (.str "a1")) ∧
      Obj.get? old "id" = some (.str "a1") ∧
      (putProductos productosIniciales "a1" [("precio", .int 999)]).status? = some 200 ∧
      (putProductos productosIniciales "a1" [("precio", .int 999)]).field? "estado" =
        some (.str "ACTUALIZADO") ∧
      (putProductos productosIniciales "a1" [("precio", .int 999)]).productos =
        before ++ merged :: after ∧
      (putProductos productosIniciales "a1" [("precio", .int 999)]).field? "recurso" =
        some (.obj merged) ∧
      ∀ f, Obj.get? merged f =
        if Obj.has [("precio", .int 999)] f = true then
          Obj.get? [("precio", JVal.int 999)] f
        else Obj.get? old f :=
  C7_update_merges_shallowly productosIniciales "a1" [("precio", .int 999)]
    (by simp [Obj.WF]) ⟨_, List.mem_cons_self _ _, rfl⟩

/-! ## C8 -/

/-- C8: for every catalog in which no product has the target id, and every request
body, `PUT /productos/:id` answers 404 with `estado: 'ERROR'`, `codigo: 404` and a
message that contains the requested id, and the catalog is the same list as before. -/
theorem C8_update_unknown_id (c : Catalog) (id : String) (body : Obj)
    (h : ∀ p ∈ c, Obj.get? p "id" ≠ some (.str id)) :
    (putProductos c id body).status? = some 404 ∧
    (putProductos c id body).field? "estado" = some (.str "ERROR") ∧
    (putProductos c id body).field? "codigo" = some (.int 404) ∧
    (∃ pre post : String,
      (putProductos c id body).field? "mensaje" = some (.str (pre ++ id ++ post))) ∧
    (putProductos c id body).productos = c := by
  have hnone : findIndex (idMatches id) c = none :=
    (findIndex_eq_none_iff _ c).mpr (fun p hp => (idMatches_eq_false_iff id p).mpr (h p hp))
  have hput := putProductos_of_none c id body hnone
  refine ⟨by simp [hput, Outcome.status?], by simp [hput, Outcome.field?, Obj.get?],
    by simp [hput, Outcome.field?, Obj.get?],
    ⟨"Producto con ID ", " no encontrado para actualizar.",
      by simp [hput, Outcome.field?, Obj.get?]⟩,
    by simp [hput]⟩

/-- Witness of C8: `PUT /productos/zz` against the initial catalog. -/
theorem C8_update_unknown_id_witness :
    (putProductos productosIniciales "zz" [("precio", .int 1)]).status? = some 404 ∧
    (putProductos productosIniciales "zz" [("precio", .int 1)]).field? "estado" =
      some (.str "ERROR") ∧
    (putProductos productosIniciales "zz" [("precio", .int 1)]).field? "codigo" =
      some (.int 404) ∧
    (∃ pre post : String,
      (putProductos productosIniciales "zz" [("precio", .int 1)]).field? "mensaje" =
        some (.str (pre ++ "zz" ++ post))) ∧
    (putProductos productosIniciales "zz" [("precio", .int 1)]).productos =
      productosIniciales :=
  C8_update_unknown_id productosIniciales "zz" [("precio", .int 1)]
    (by
      intro p hp
      simp only [productosIniciales, List.mem_cons, List.mem_singleton, List.not_mem_nil,
        or_false] at hp
      rcases hp with rfl | rfl | rfl <;> simp [Obj.get?])

/-! ## C9 -/

/-- C9: for every catalog containing a product with the target id, the id not being
`critical`, `DELETE /productos/:id` answers 200 with `estado: 'ELIMINADO'`,
`recurso_eliminado` is the first product of the catalog with that id, and the new
catalog is the old one with that one element removed: one shorter, the remaining
products in the same order and unchanged. -/
theorem C9_delete_existing (c : Catalog) (id : String) (hid : id ≠ "critical")
    (hex : ∃ p ∈ c, Obj.get? p "id" = some (.str id)) :
    ∃ (before : Catalog) (removed : Obj) (after : Catalog),
      c = before ++ removed :: after ∧
      (∀ q ∈ before, Obj.get? q "id" ≠ some (.str id)) ∧
      Obj.get? removed "id" = some (.str id) ∧
      (deleteProductos c id).status? = some 200 ∧
      (deleteProductos c id).field? "estado" = some (.str "ELIMINADO") ∧
      (deleteProductos c id).field? "recurso_eliminado" = some (.obj removed) ∧
      (deleteProductos c id).productos = before ++ after ∧
      (deleteProductos c id).productos.length + 1 = c.length := by
  obtain ⟨p, hp, hpid⟩ := hex
  obtain ⟨i, hi⟩ :=
    findIndex_isSome_of_mem (idMatches id) c p hp ((idMatches_iff id p).mpr hpid)
  obtain ⟨before, removed, after, hc, _, hrem, hbefore⟩ := findIndex_eq_some _ _ _ hi
  subst hc
  have hdel := deleteProductos_of_split before after removed id hid hrem hbefore
  refine ⟨before, removed, after, rfl, ?_, (idMatches_iff id removed).mp hrem, ?_, ?_, ?_,
    ?_, ?_⟩
  · intro q hq
    exact (idMatches_eq_false_iff id q).mp (hbefore q hq)
  · simp [hdel, Outcome.status?]
  · simp [hdel, Outcome.field?, Obj.get?]
  · simp [hdel, Outcome.field?, Obj.get?]
  · simp [hdel]
  · simp [hdel]
    omega

/-- Witness of C9: `DELETE /productos/b2` against the initial catalog. -/
theorem C9_delete_existing_witness :
    ∃ (before : Catalog) (removed : Obj) (after : Catalog),
      productosIniciales = before ++ removed :: after ∧
      (∀ q ∈ before, Obj.get? q "id" ≠ some (.str "b2")) ∧
      Obj.get? removed "id" = some (.str "b2") ∧
      (deleteProductos productosIniciales "b2").status? = some 200 ∧
      (deleteProductos productosIniciales "b2").field? "estado" =
        some (.str "ELIMINADO") ∧
      (deleteProductos productosIniciales "b2").field? "recurso_eliminado" =
        some (.obj removed) ∧
      (deleteProductos productosIniciales "b2").productos = before ++ after ∧
      (deleteProductos productosIniciales "b2").productos.length + 1 =
        productosIniciales.length :=
  C9_delete_existing productosIniciales "b2" (by decide)
    ⟨_, List.mem_cons_of_mem _ (List.mem_cons_self _ _), rfl⟩

/-! ## C10 -/

/-- C10: for every catalog, one holding a product whose id is `critical` included,
`DELETE /productos/critical` answers 500 with `estado: 'ERROR FATAL'` and
`codigo: 500`, and the catalog is the same list as before. -/
theorem C10_delete_sentinel (c : Catalog) :
    (deleteProductos c "critical").status? = some 500 ∧
    (deleteProductos c "critical").field? "estado" = some (.str "ERROR FATAL") ∧
    (deleteProductos c "critical").field? "codigo" = some (.int 500) ∧
    (deleteProductos c "critical").productos = c := by
  simp [deleteProductos_critical, Outcome.status?, Outcome.field?, Obj.get?]

/-! ## C11 -/

/-- C11: for every catalog in which no product has the target id, the id not being
`critical`, `DELETE /productos/:id` answers 404 with `estado: 'ERROR'` and
`codigo: 404`, and the catalog is the same list as before. -/
theorem C11_delete_unknown_id (c : Catalog) (id : String) (hid : id ≠ "critical")
    (h : ∀ p ∈ c, Obj.get? p "id" ≠ some (.str id)) :
    (deleteProductos c id).status? = some 404 ∧
    (deleteProductos c id).field? "estado" = some (.str "ERROR") ∧
    (deleteProductos c id).field? "codigo" = some (.int 404) ∧
    (deleteProductos c id).productos = c := by
  have hnone : findIndex (idMatches id) c = none :=
    (findIndex_eq_none_iff _ c).mpr (fun p hp => (idMatches_eq_false_iff id p).mpr (h p hp))
  have hdel := deleteProductos_of_none c id hid hnone
  exact ⟨by simp [hdel, Outcome.status?], by simp [hdel, Outcome.field?, Obj.get?],
    by simp [hdel, Outcome.field?, Obj.get?], by simp [hdel]⟩

/-- Witness of C11: `DELETE /productos/zz` against the initial catalog. -/
theorem C11_delete_unknown_id_witness :
    (deleteProductos productosIniciales "zz").status? = some 404 ∧
    (deleteProductos productosIniciales "zz").field? "estado" = some (.str "ERROR") ∧
    (deleteProductos productosIniciales "zz").field? "codigo" = some (.int 404) ∧
    (deleteProductos productosIniciales "zz").productos = productosIniciales :=
  C11_delete_unknown_id productosIniciales "zz" (by decide)
    (by
      intro p hp
      simp only [productosIniciales, List.mem_cons, List.mem_singleton, List.not_mem_nil,
        or_false] at hp
      rcases hp with rfl | rfl | rfl <;> simp [Obj.get?])

/-! ## C12 -/

theorem postProductos_of_status_201 (c : Catalog) (body : Obj) (random36 : String)
    (h : (postProductos c body random36).status? = some 201) :
    (postProductos c body random36).productos =
      c ++ [Obj.set body "id" (.str (generateId random36))] := by
  unfold postProductos at h ⊢
  split
  · rename_i heq
    simp [heq, Outcome.status?] at h
  · rename_i heq
    simp [heq, Outcome.status?] at h
  · rfl

/-- C12: for every catalog and every request body accepted by `POST /productos`
(status 201), an unfiltered `GET /productos` made right after it answers with a
`data` list made of the products listed before, in their order, followed by the new
product as last element, and the new product has the caller's value for every field
of the request body other than `id`. -/
theorem C12_create_then_list (c : Catalog) (body : Obj) (random36 : String) (query : Obj)
    (haccepted : (postProductos c body random36).status? = some 201)
    (hquery : Obj.get? query "stock_minimo" = none ∨
      Obj.get? query "stock_minimo" = some (.str "0")) :
    ∃ record : Obj,
      (getProductos (postProductos c body random36).productos query).field? "data" =
        some (.arr (c.map .obj ++ [.obj record])) ∧
      (getProductos c query).field? "data" = some (.arr (c.map .obj)) ∧
      ∀ f, f ≠ "id" → Obj.get? record f = Obj.get? body f := by
  have hundef : (jsParseInt "undefined").isPositive = false := by decide
  have hzero : (jsParseInt "0").isPositive = false := by decide
  have hlist : ∀ d : Catalog, (getProductos d query).field? "data" =
      some (.arr (d.map .obj)) := by
    intro d
    rcases hquery with h | h
    · simp [getProductos, h, jsToStringOpt, hundef, listaCompleta, Outcome.field?, Obj.get?]
    · simp [getProductos, h, jsToStringOpt, jsToString, hzero, listaCompleta,
        Outcome.field?, Obj.get?]
  refine ⟨Obj.set body "id" (.str (generateId random36)), ?_, hlist c, ?_⟩
  · rw [hlist, postProductos_of_status_201 c body random36 haccepted]
    simp
  · intro f hf
    rw [Obj.get?_set, if_neg (fun h => hf h.symm)]

/-- Witness of C12: the body of the specification's example, then a listing with no
query parameter. -/
theorem C12_create_then_list_witness :
    ∃ record : Obj,
      (getProductos (postProductos productosIniciales
        [("nombre", .str "Mouse"), ("precio", .int 25), ("stock", .int 100)]
        "0.4fzyo82mvyr").productos []).field? "data" =
        some (.arr (productosIniciales.map .obj ++ [.obj record])) ∧
      (getProductos productosIniciales []).field? "data" =
        some (.arr (productosIniciales.map .obj)) ∧
      ∀ f, f ≠ "id" → Obj.get? record f =
        Obj.get? [("nombre", .str "Mouse"), ("precio", .int 25), ("stock", .int 100)] f :=
  C12_create_then_list productosIniciales
    [("nombre", .str "Mouse"), ("precio", .int 25), ("stock", .int 100)]
    "0.4fzyo82mvyr" [] (by decide) (Or.inl rfl)

/-! ## C13 -/

theorem putProductos_status (c : Catalog) (id : String) (body : Obj) :
    (putProductos c id body).status? = some 200 ∨
      (putProductos c id body).status? = some 404 := by
  unfold putProductos
  split
  · exact Or.inr rfl
  · exact Or.inl rfl

theorem deleteProductos_status (c : Catalog) (id : String) :
    (deleteProductos c id).status? = some 200 ∨
      (deleteProductos c id).status? = some 404 ∨
      (deleteProductos c id).status? = some 500 := by
  by_cases hid : id = "critical"
  · subst hid
    exact Or.inr (Or.inr (by simp [deleteProductos_critical, Outcome.status?]))
  · cases hfi : findIndex (idMatches id) c with
    | none =>
      exact Or.inr (Or.inl (by simp [deleteProductos_of_none c id hid hfi, Outcome.status?]))
    | some i =>
      obtain ⟨before, p, after, hc, _, hp, hbefore⟩ := findIndex_eq_some _ _ _ hfi
      subst hc
      exact Or.inl (by
        simp [deleteProductos_of_split before after p id hid hp hbefore, Outcome.status?])

/-- C13 fails on the code for `POST /productos`: when `nombre` is a truthy value that
is not a string (the number 5, `true`, an array, an object), the call
`nuevoProducto.nombre.trim()` of the validation raises a `TypeError`; the handler
sends neither its 400 nor its 201 response, and the catalog is left as it was. -/
theorem C13_post_raises_on_non_string_nombre :
    ((postProductos productosIniciales [("nombre", .int 5)] "0.4fzyo82mvyr").status? = none ∧
      (postProductos productosIniciales [("nombre", .int 5)] "0.4fzyo82mvyr").raised? =
        some (.typeError "nuevoProducto.nombre.trim is not a function")) ∧
    ((postProductos productosIniciales [("nombre", .bool true)] "0.4fzyo82mvyr").status? =
        none ∧
      (postProductos productosIniciales [("nombre", .bool true)] "0.4fzyo82mvyr").raised? =
        some (.typeError "nuevoProducto.nombre.trim is not a function")) ∧
    ((postProductos productosIniciales [("nombre", .arr [])] "0.4fzyo82mvyr").status? =
        none ∧
      (postProductos productosIniciales [("nombre", .arr [])] "0.4fzyo82mvyr").raised? =
        some (.typeError "nuevoProducto.nombre.trim is not a function")) ∧
    ((postProductos productosIniciales [("nombre", .obj [])] "0.4fzyo82mvyr").status? =
        none ∧
      (postProductos productosIniciales [("nombre", .obj [])] "0.4fzyo82mvyr").raised? =
        some (.typeError "nuevoProducto.nombre.trim is not a function")) ∧
    (postProductos productosIniciales [("nombre", .int 5)] "0.4fzyo82mvyr").productos.map
      idString = [some "a1", some "b2", some "c3"] := by
  decide

/-! ## C14 -/

theorem findIndex_isSome_of_put_ok (c : Catalog) (id : String) (body : Obj)
    (hok : (putProductos c id body).status? = some 200) :
    ∃ i, findIndex (idMatches id) c = some i := by
  cases hfi : findIndex (idMatches id) c with
  | some i => exact ⟨i, rfl⟩
  | none =>
    rw [putProductos_of_none c id body hfi] at hok
    simp [Outcome.status?] at hok

/-- C14: for every catalog and every successful `PUT /productos/:id` (status 200), the
catalog afterwards has the same length, and every position other than the index of
the first product whose id equals the target id holds the same record as before;
this includes any later product with the same id. -/
theorem C14_update_touches_first_match (c : Catalog) (id : String) (body : Obj)
    (hok : (putProductos c id body).status? = some 200) :
    ∃ (before : Catalog) (old : Obj) (after : Catalog),
      c = before ++ old :: after ∧
      (∀ q ∈ before, Obj.get? q "id" ≠ some (.str id)) ∧
      Obj.get? old "id" = some (.str id) ∧
      (putProductos c id body).productos.length = c.length ∧
      ∀ j, j ≠ before.length → (putProductos c id body).productos[j]? = (c)[j]? := by
  obtain ⟨i, hi⟩ := findIndex_isSome_of_put_ok c id body hok
  obtain ⟨before, old, after, hc, _, hold, hbefore⟩ := findIndex_eq_some _ _ _ hi
  subst hc
  have hput := putProductos_of_split before after old id body hold hbefore
  refine ⟨before, old, after, rfl, ?_, (idMatches_iff id old).mp hold, ?_, ?_⟩
  · intro q hq
    exact (idMatches_eq_false_iff id q).mp (hbefore q hq)
  · simp [hput]
  · intro j hj
    rw [hput]
    simp only
    rw [← set_append_cons before after old (Obj.spread old body)]
    exact List.getElem?_set_ne (fun h => hj h.symm)

/-- Witness of C14: two products share the id `a1`; the update changes the first and
leaves the second, at position 1, as it was. -/
theorem C14_update_touches_first_match_witness :
    ∃ (before : Catalog) (old : Obj) (after : Catalog),
      [[("id", JVal.str "a1"), ("precio", JVal.int 1)],
        [("id", JVal.str "a1"), ("precio", JVal.int 2)]] = before ++ old :: after ∧
      (∀ q ∈ before, Obj.get? q "id" ≠ some (.str "a1")) ∧
      Obj.get? old "id" = some (.str "a1") ∧
      (putProductos [[("id", .str "a1"), ("precio", .int 1)],
        [("id", .str "a1"), ("precio", .int 2)]] "a1" [("precio", .int 9)]).productos.length =
        [[("id", JVal.str "a1"), ("precio", JVal.int 1)],
          [("id", JVal.str "a1"), ("precio", JVal.int 2)]].length ∧
      ∀ j, j ≠ before.length →
        (putProductos [[("id", .str "a1"), ("precio", .int 1)],
          [("id", .str "a1"), ("precio", .int 2)]] "a1" [("precio", .int 9)]).productos[j]? =
        [[("id", JVal.str "a1"), ("precio", JVal.int 1)],
          [("id", JVal.str "a1"), ("precio", JVal.int 2)]][j]? :=
  C14_update_touches_first_match
    [[("id", .str "a1"), ("precio", .int 1)], [("id", .str "a1"), ("precio", .int 2)]]
    "a1" [("precio", .int 9)] (by decide)

/-! ## C15 -/

/-- C15: an update can blank the name that create refuses. From the initial catalog,
`PUT /productos/a1` with `{"nombre": ""}` answers 200 and the first product is stored
with the empty string as `nombre`, while `POST /productos` answers 400 to every body
whose `nombre` is the empty string and stores nothing. -/
theorem C15_update_blanks_nombre :
    (putProductos productosIniciales "a1" [("nombre", .str "")]).status? = some 200 ∧
    (putProductos productosIniciales "a1" [("nombre", .str "")]).productos.map
        (fun p => Obj.get? p "nombre") =
      [some (.str ""), some (.str "Teclado Mecánico"), some (.str "Monitor 4K")] ∧
    (putProductos productosIniciales "a1" [("nombre", .str "")]).productos.map idString =
      [some "a1", some "b2", some "c3"] ∧
    ∀ (c : Catalog) (body : Obj) (random36 : String),
      Obj.get? body "nombre" = some (.str "") →
        (postProductos c body random36).status? = some 400 ∧
        (postProductos c body random36).productos = c := by
  refine ⟨by decide, rfl, by decide, ?_⟩
  intro c body random36 hnombre
  have hinv : nombreInvalido (Obj.get? body "nombre") = .ok true :=
    nombreInvalido_of_blank _ (Or.inr ⟨"", hnombre, by simp⟩)
  simp [postProductos, hinv, Outcome.status?]

/-! ## C16 -/

theorem id_absent_after_removal (before after : Catalog) (removed : Obj) (id : String)
    (hdistinct : ((before ++ removed :: after).map (fun p => Obj.get? p "id")).Nodup)
    (hremoved : Obj.get? removed "id" = some (.str id)) :
    ∀ q ∈ before ++ after, Obj.get? q "id" ≠ some (.str id) := by
  rw [List.map_append, List.map_cons, List.nodup_middle, List.nodup_cons,
    ← List.map_append] at hdistinct
  intro q hq heq
  apply hdistinct.1
  rw [hremoved, ← heq]
  exact List.mem_map.mpr ⟨q, hq, rfl⟩

/-- C16: for every catalog whose ids are pairwise distinct and every id other than
`critical` present in it, `DELETE /productos/:id` answers 200, afterwards no product
of the catalog has that id, and a `DELETE` or a `PUT` with the same id made right
after it answers 404 and leaves the catalog unchanged. -/
theorem C16_deleted_id_is_gone (c : Catalog) (id : String) (body : Obj)
    (hdistinct : (c.map (fun p => Obj.get? p "id")).Nodup)
    (hid : id ≠ "critical")
    (hex : ∃ p ∈ c, Obj.get? p "id" = some (.str id)) :
    (deleteProductos c id).status? = some 200 ∧
    (∀ q ∈ (deleteProductos c id).productos, Obj.get? q "id" ≠ some (.str id)) ∧
    (deleteProductos (deleteProductos c id).productos id).status? = some 404 ∧
    (deleteProductos (deleteProductos c id).productos id).productos =
      (deleteProductos c id).productos ∧
    (putProductos (deleteProductos c id).productos id body).status? = some 404 ∧
    (putProductos (deleteProductos c id).productos id body).productos =
      (deleteProductos c id).productos := by
  obtain ⟨p, hp, hpid⟩ := hex
  obtain ⟨i, hi⟩ :=
    findIndex_isSome_of_mem (idMatches id) c p hp ((idMatches_iff id p).mpr hpid)
  obtain ⟨before, removed, after, hc, _, hrem, hbefore⟩ := findIndex_eq_some _ _ _ hi
  subst hc
  have hdel := deleteProductos_of_split before after removed id hid hrem hbefore
  have hgone := id_absent_after_removal before after removed id hdistinct
    ((idMatches_iff id removed).mp hrem)
  have hnone : findIndex (idMatches id) (before ++ after) = none :=
    (findIndex_eq_none_iff _ _).mpr
      (fun q hq => (idMatches_eq_false_iff id q).mpr (hgone q hq))
  have hdel2 := deleteProductos_of_none (before ++ after) id hid hnone
  have hput2 := putProductos_of_none (before ++ after) id body hnone
  rw [hdel]
  refine ⟨by simp [Outcome.status?], hgone, ?_, ?_, ?_, ?_⟩
  · simp [hdel2, Outcome.status?]
  · simp [hdel2]
  · simp [hput2, Outcome.status?]
  · simp [hput2]

/-- Witness of C16: `DELETE /productos/b2` against the initial catalog, then a second
`DELETE` and a `PUT` with the same id. -/
theorem C16_deleted_id_is_gone_witness :
    (deleteProductos productosIniciales "b2").status? = some 200 ∧
    (∀ q ∈ (deleteProductos productosIniciales "b2").productos,
      Obj.get? q "id" ≠ some (.str "b2")) ∧
    (deleteProductos (deleteProductos productosIniciales "b2").productos "b2").status? =
      some 404 ∧
    (deleteProductos (deleteProductos productosIniciales "b2").productos "b2").productos =
      (deleteProductos productosIniciales "b2").productos ∧
    (putProductos (deleteProductos productosIniciales "b2").productos "b2"
      [("precio", .int 1)]).status? = some 404 ∧
    (putProductos (deleteProductos productosIniciales "b2").productos "b2"
      [("precio", .int 1)]).productos = (deleteProductos productosIniciales "b2").productos :=
  C16_deleted_id_is_gone productosIniciales "b2" [("precio", .int 1)]
    (by simp [productosIniciales, Obj.get?])
    (by decide)
    ⟨_, List.mem_cons_of_mem _ (List.mem_cons_self _ _), rfl⟩

/-! ## C17 -/

/-- C17: for every catalog and every successful `PUT /productos/:id` (status 200), the
record stored at the place of the first product with the target id is the one
returned as `recurso`. When the request body has no `id` field, that record's id is
still the target id and the sequence of ids of the catalog is the same before and
after. When the body has an `id` field, that record's id is the body's value. -/
theorem C17_update_id_follows_body (c : Catalog) (id : String) (body : Obj)
    (hwf : Obj.WF body) (hok : (putProductos c id body).status? = some 200) :
    ∃ (before : Catalog) (old merged : Obj) (after : Catalog),
      c = before ++ old :: after ∧
      (putProductos c id body).productos = before ++ merged :: after ∧
      (putProductos c id body).field? "recurso" = some (.obj merged) ∧
      (Obj.has body "id" = false →
        Obj.get? merged "id" = some (.str id) ∧
        (putProductos c id body).productos.map (fun p => Obj.get? p "id") =
          c.map (fun p => Obj.get? p "id")) ∧
      (Obj.has body "id" = true → Obj.get? merged "id" = Obj.get? body "id") := by
  obtain ⟨i, hi⟩ := findIndex_isSome_of_put_ok c id body hok
  obtain ⟨before, old, after, hc, _, hold, hbefore⟩ := findIndex_eq_some _ _ _ hi
  subst hc
  have hput := putProductos_of_split before after old id body hold hbefore
  have holdid : Obj.get? old "id" = some (.str id) := (idMatches_iff id old).mp hold
  refine ⟨before, old, Obj.spread old body, after, rfl, by simp [hput],
    by simp [hput, Outcome.field?, Obj.get?], ?_, ?_⟩
  · intro hno
    have hkeep : Obj.get? (Obj.spread old body) "id" = Obj.get? old "id" :=
      Obj.get?_spread_of_not_has old body "id" hno
    refine ⟨by rw [hkeep, holdid], ?_⟩
    rw [hput]
    simp [hkeep]
  · intro hhas
    exact Obj.get?_spread_of_has old body "id" hwf hhas

/-- Witness of C17: `PUT /productos/a1` with `{"id": "zz"}` against the initial
catalog. -/
theorem C17_update_id_follows_body_witness :
    ∃ (before : Catalog) (old merged : Obj) (after : Catalog),
      productosIniciales = before ++ old :: after ∧
      (putProductos productosIniciales "a1" [("id", .str "zz")]).productos =
        before ++ merged :: after ∧
      (putProductos productosIniciales "a1" [("id", .str "zz")]).field? "recurso" =
        some (.obj merged) ∧
      (Obj.has [("id", JVal.str "zz")] "id" = false →
        Obj.get? merged "id" = some (.str "a1") ∧
        (putProductos productosIniciales "a1" [("id", .str "zz")]).productos.map
            (fun p => Obj.get? p "id") =
          productosIniciales.map (fun p => Obj.get? p "id")) ∧
      (Obj.has [("id", JVal.str "zz")] "id" = true →
        Obj.get? merged "id" = Obj.get? [("id", JVal.str "zz")] "id") :=
  C17_update_id_follows_body productosIniciales "a1" [("id", .str "zz")]
    (by simp [Obj.WF]) (by decide)

end Server
